import Mathlib

/-!
Verification of the SevaLink chatbot NLU pipeline (routes/chatbot e.g. the
text endpoint, classifier, extractors, normalizer and request assembly).

The JavaScript source is embedded shallowly: strings are `List Char` /
`String`, the specific regular expressions of the source are implemented as
bespoke scanning functions with JavaScript semantics (in particular the
non-unicode word-boundary assertion, where a word character is exactly
[A-Za-z0-9_]), and `String.prototype.replace(/…/g, r)` is implemented as a
leftmost, non-overlapping, global replacement with the alternatives tried in
the order they are written.

Two modelling notes, both commented again at the definitions they concern:
* JavaScript's `toLowerCase` is modelled on ASCII letters only; every pattern
  the source lowercases against is pure ASCII, and Devanagari and Telugu have
  no case, so the model agrees with the source on all inputs built from those
  scripts.
* The source text declares the function createRequestFromChatWithInfo twice
  in the same module scope.  By JavaScript hoisting the later declaration
  shadows the earlier one everywhere, so the embedding below is of the later
  (effective) declaration.
-/

namespace SevaLink

/-- JavaScript word character for the non-unicode word boundary assertion:
exactly [A-Za-z0-9_].  Devanagari and Telugu letters are NOT word chars. -/
def isWordChar (c : Char) : Bool :=
  ('a' ≤ c && c ≤ 'z') || ('A' ≤ c && c ≤ 'Z') || ('0' ≤ c && c ≤ '9') || c == '_'

/-- JavaScript whitespace for the regex class backslash-s (the space forms the
source actually meets). -/
def isSpaceChar (c : Char) : Bool :=
  c == ' ' || c == '\t' || c == '\n' || c == '\r'

/-- A character of the Devanagari block U+0900 - U+097F. -/
def isDevanagariChar (c : Char) : Bool :=
  0x900 ≤ c.toNat && c.toNat ≤ 0x97F

/-- A character of the Telugu block U+0C00 - U+0C7F. -/
def isTeluguChar (c : Char) : Bool :=
  0xC00 ≤ c.toNat && c.toNat ≤ 0xC7F

/-- The guard character class of translateToEnglish:
[u0900-u097F u0C00-u0C7F]. -/
def isMarkedChar (c : Char) : Bool :=
  isDevanagariChar c || isTeluguChar c

/-- ASCII lower-casing, the fragment of JavaScript toLowerCase the source
relies on (its patterns are ASCII or caseless Indic script). -/
def lowerChar (c : Char) : Char := c.toLower

def lowerStr (s : List Char) : List Char := s.map lowerChar

/-- Plain substring test (the regex test of an alternation of literals on an
already lowercased string). -/
def containsSub (pat : List Char) : List Char → Bool
  | [] => pat.isEmpty
  | c :: cs => pat.isPrefixOf (c :: cs) || containsSub pat cs

/-- Substring test for any of an ordered list of literal alternatives. -/
def containsAnyOf (pats : List (List Char)) (s : List Char) : Bool :=
  pats.any fun p => containsSub p s

/-- Case-insensitive literal match against a prefix of the input; returns the
rest of the input on success. -/
def matchLitCI : List Char → List Char → Option (List Char)
  | [], s => some s
  | _ :: _, [] => none
  | p :: ps, c :: cs => if lowerChar p == lowerChar c then matchLitCI ps cs else none

/-- Case-insensitive substring test, the test of /literal/i. -/
def containsSubCI (pat s : List Char) : Bool :=
  containsSub (lowerStr pat) (lowerStr s)

/-- The JS fragment a.*b inside a test: an occurrence of a, then any
characters except newline, then b. -/
def gapTail (b : List Char) : List Char → Bool
  | [] => b.isEmpty
  | c :: cs => b.isPrefixOf (c :: cs) || (c != '\n' && gapTail b cs)

def containsGapPair (a b : List Char) : List Char → Bool
  | [] => a.isEmpty && gapTail b []
  | c :: cs =>
    (match matchExact a (c :: cs) with
     | some rest => gapTail b rest
     | none => false) || containsGapPair a b cs
where
  matchExact : List Char → List Char → Option (List Char)
    | [], s => some s
    | _ :: _, [] => none
    | p :: ps, c :: cs => if p == c then matchExact ps cs else none

/-- Word-boundary-delimited, case-insensitive word search: the JS test
/\b(w1|w2|…)\b/i for all-letter words.  prev is the character before the
current position (none at the start of the string). -/
def wordSearchCI (ws : List (List Char)) : Option Char → List Char → Bool
  | _, [] => false
  | prev, c :: cs =>
    (decide (¬ (prev.elim false isWordChar) = true) &&
      ws.any fun w =>
        match matchLitCI w (c :: cs) with
        | some rest => !(rest.head?.elim false isWordChar)
        | none => false) ||
    wordSearchCI ws (some c) cs

/-- The trim of the source texts: strip leading and trailing whitespace. -/
def trimJS (s : String) : String :=
  ⟨((s.data.dropWhile isSpaceChar).reverse.dropWhile isSpaceChar).reverse⟩

/-- String-level wrappers. -/
def strContains (s pat : String) : Bool := containsSub pat.data s.data

def strContainsAny (s : String) (pats : List String) : Bool :=
  containsAnyOf (pats.map String.data) s.data

def strLower (s : String) : String := ⟨lowerStr s.data⟩

def anyChar (p : Char → Bool) (s : String) : Bool := s.data.any p

/-! ## Classifier and priority resolver (categorizeRequest, determinePriority) -/

/-- The blood-request keyword test of categorizeRequest, applied to the
lowercased message. -/
def bloodPatternMatch (lowerText : String) : Bool :=
  strContainsAny lowerText
    ["blood", "donate", "donation", "transfusion", "plasma", "platelets",
     "रक्त", "खून", "రక్తం", "donor", "o+", "o-", "a+", "a-", "b+", "b-",
     "ab+", "ab-", "surgery", "operation", "hospital", "patient"]

/-- The emergency keyword test of categorizeRequest (the alternative
help.*urgent is the only non-literal member). -/
def emergencyPatternMatch (lowerText : String) : Bool :=
  strContainsAny lowerText ["emergency", "urgent", "critical", "immediate", "asap"] ||
  containsGapPair "help".data "urgent".data lowerText.data ||
  strContainsAny lowerText ["आपातकाल", "तुरंत", "అత్యవసరం", "911", "108", "ambulance"]

/-- The elder-support keyword test of categorizeRequest. -/
def elderPatternMatch (lowerText : String) : Bool :=
  strContainsAny lowerText
    ["elderly", "old", "senior", "medicine", "grocery", "care", "caregiver",
     "nursing", "assistance", "बुजुर्ग", "दवा", "వృద్ధులు", "మందులు",
     "grandfather", "grandmother", "parent", "mom", "dad", "mother", "father"]

/-- The complaint keyword test of categorizeRequest. -/
def complaintPatternMatch (lowerText : String) : Bool :=
  strContainsAny lowerText
    ["complaint", "problem", "issue", "broken", "not working", "damaged",
     "fault", "repair", "fix", "शिकायत", "समस्या", "ఫిర్యాదు", "సమస్య",
     "street", "light", "road", "water", "electricity", "garbage", "sewage",
     "drainage", "pothole", "noise", "pollution"]

/-- categorizeRequest: ordered keyword tests on the lowercased message,
first match wins, defaulting to general_inquiry. -/
def categorizeRequest (text : String) : String :=
  let lowerText := strLower text
  if bloodPatternMatch lowerText then "blood_request"
  else if emergencyPatternMatch lowerText then "emergency"
  else if elderPatternMatch lowerText then "elder_support"
  else if complaintPatternMatch lowerText then "complaint"
  else "general_inquiry"

/-- determinePriority: ordered urgency keyword tests on the lowercased
message, defaulting to medium. -/
def determinePriority (text : String) : String :=
  let lowerText := strLower text
  if strContainsAny lowerText ["emergency", "urgent", "critical", "आपातकाल", "तुरंत", "అత్యవసరం"]
    then "urgent"
  else if strContainsAny lowerText ["important", "asap", "soon", "जल्दी", "త్వరగా"] then "high"
  else if strContainsAny lowerText ["whenever", "no rush", "जब समय हो", "సమయం ఉన్నప్పుడు"]
    then "low"
  else "medium"

/-! ## extractUrgency -/

def urgencyUrgentWords : List String :=
  ["urgent", "emergency", "asap", "immediately", "critical", "dying", "serious"]

def urgencyLowWords : List String :=
  ["low", "not urgent", "can wait", "flexible", "when possible", "whenever"]

def urgencyHighWords : List String :=
  ["high", "soon", "needed", "required", "fast", "quick"]

def urgencyMediumWords : List String :=
  ["medium", "normal", "regular", "moderate", "standard"]

/-- extractUrgency: four keyword tiers tested in order on the lowercased
message; none returns null. -/
def extractUrgency (text : String) : Option String :=
  let t := strLower text
  if strContainsAny t urgencyUrgentWords then some "urgent"
  else if strContainsAny t urgencyLowWords then some "low"
  else if strContainsAny t urgencyHighWords then some "high"
  else if strContainsAny t urgencyMediumWords then some "medium"
  else none

/-! ## detectLanguageFromText -/

def teluguNativeWords : List String :=
  ["రక్తం", "కావాలి", "అవసరం", "పాజిటివ్", "నెగటివ్", "అత్యవసరం", "త్వరగా"]

def hindiNativeWords : List String :=
  ["खून", "रक्त", "चाहिए", "आवश्यक", "पॉजिटिव", "नेगेटिव", "तुरंत", "आपातकाल"]

def teluguRomanWords : List String :=
  ["rakthamu", "kavali", "avasaram", "positive", "negative", "athyavasaram", "thvaraga"]

def hindiRomanWords : List String :=
  ["khoon", "rakth", "chahiye", "aavashyak", "positive", "negative", "turant", "aapatkaal"]

/-- detectLanguageFromText: the Telugu script-or-word test comes first in the
source, then the Hindi one, then the romanized Telugu list, then the
romanized Hindi list, then the default en. -/
def detectLanguageFromText (text : String) : String :=
  if anyChar isTeluguChar text || strContainsAny text teluguNativeWords then "te"
  else if anyChar isDevanagariChar text || strContainsAny text hindiNativeWords then "hi"
  else if wordSearchCI (teluguRomanWords.map String.data) none text.data then "te"
  else if wordSearchCI (hindiRomanWords.map String.data) none text.data then "hi"
  else "en"

/-! ## extractBloodType

The four patterns of the source are implemented as bespoke scanners with
JavaScript regex semantics: leftmost position wins, alternatives are tried
in written order with backtracking, the quantifiers over the whitespace
class are greedy (deterministic here because no alternative continues with a
whitespace character), and the word-boundary assertion uses the non-unicode
word class [A-Za-z0-9_] - so Devanagari and Telugu letters do NOT count as
word characters. -/

def isWordOpt : Option Char → Bool
  | none => false
  | some c => isWordChar c

/-- The JS assertion backslash-b between a left and right character (none at
either edge of the string): exactly one side is a word character. -/
def wordBoundary (l r : Option Char) : Bool := isWordOpt l != isWordOpt r

/-- Case-insensitive literal consumption: returns the consumed input text and
the rest. -/
def takeLitCI : List Char → List Char → Option (List Char × List Char)
  | [], s => some ([], s)
  | _ :: _, [] => none
  | pc :: ps, c :: cs =>
    if lowerChar pc == lowerChar c then
      (takeLitCI ps cs).map fun tr => (c :: tr.1, tr.2)
    else none

/-- Greedy run of regex whitespace. -/
def takeSpaces : List Char → List Char × List Char
  | [] => ([], [])
  | c :: cs =>
    if isSpaceChar c then
      let (t, r) := takeSpaces cs
      (c :: t, r)
    else ([], c :: cs)

/-- An alternative of the first blood-type pattern: the group letters
followed either by a bare sign or by optional whitespace and a word. -/
inductive P1Rh where
  | sym (c : Char)
  | word (w : String)

/-- The alternatives of bloodTypePattern in source order (the second half of
the source alternation repeats the same alternatives in lower case, which
under the i flag match exactly the same texts, so they are kept but can
never fire first differently). -/
def p1Alts : List (String × P1Rh) :=
  [("O", .sym '+'), ("O", .sym '-'), ("A", .sym '+'), ("A", .sym '-'),
   ("B", .sym '+'), ("B", .sym '-'), ("AB", .sym '+'), ("AB", .sym '-'),
   ("O", .word "positive"), ("O", .word "negative"),
   ("A", .word "positive"), ("A", .word "negative"),
   ("B", .word "positive"), ("B", .word "negative"),
   ("AB", .word "positive"), ("AB", .word "negative"),
   ("o", .sym '+'), ("o", .sym '-'), ("a", .sym '+'), ("a", .sym '-'),
   ("b", .sym '+'), ("b", .sym '-'), ("ab", .sym '+'), ("ab", .sym '-'),
   ("o", .word "positive"), ("o", .word "negative"),
   ("a", .word "positive"), ("a", .word "negative"),
   ("b", .word "positive"), ("b", .word "negative"),
   ("ab", .word "positive"), ("ab", .word "negative")]

/-- Try one alternative of bloodTypePattern at the current position,
including its trailing word boundary. -/
def matchP1Alt (alt : String × P1Rh) (s : List Char) : Option (List Char × List Char) :=
  (takeLitCI alt.1.data s).bind fun (t1, r1) =>
    match alt.2 with
    | .sym c =>
      match r1 with
      | c' :: r2 =>
        if c' == c && wordBoundary (some c') r2.head? then some (t1 ++ [c'], r2) else none
      | [] => none
    | .word w =>
      let (sp, r2) := takeSpaces r1
      (takeLitCI w.data r2).bind fun (t2, r3) =>
        let m := t1 ++ sp ++ t2
        if wordBoundary m.getLast? r3.head? then some (m, r3) else none

/-- Leftmost match of bloodTypePattern, returning the captured text.  All
alternatives begin with a letter, so the leading word boundary is: the
previous character is not a word character. -/
def scanP1 : Option Char → List Char → Option (List Char)
  | _, [] => none
  | prev, c :: cs =>
    (if !isWordOpt prev then
      (p1Alts.findSome? fun alt => matchP1Alt alt (c :: cs)).map Prod.fst
     else none).orElse fun _ => scanP1 (some c) cs

/-- replace(/PAT/, repl) on a string pattern: first occurrence only, as the
source normalization does for POSITIVE and NEGATIVE. -/
def replaceFirst (pat repl : List Char) : List Char → List Char
  | [] => []
  | c :: cs =>
    if pat.isPrefixOf (c :: cs) then repl ++ (c :: cs).drop pat.length
    else c :: replaceFirst pat repl cs

/-- The normalization of a bloodTypePattern capture: upper-case, strip
whitespace, then spell the Rh factor as a sign. -/
def normalizeBloodType (m : List Char) : String :=
  let upper := (m.map Char.toUpper).filter fun c => !isSpaceChar c
  ⟨replaceFirst "NEGATIVE".data "-".data (replaceFirst "POSITIVE".data "+".data upper)⟩

def p2Group1 : List String :=
  ["need", "want", "require", "looking for", "चाहिए", "आवश्यक", "కావాలి", "అవసరం"]

def p2Group2 : List String := ["A", "B", "AB", "O"]

def p2Group3 : List String :=
  ["positive", "negative", "+", "-", "पॉजिटिव", "नेगेटिव", "పాజిటివ్", "నెగటివ్"]

/-- Try alternativePattern at the current position (after its leading word
boundary has been checked), returning the captured group-2 and group-3
texts. -/
def matchP2At (s : List Char) : Option (List Char × List Char) :=
  p2Group1.findSome? fun g1 =>
    (takeLitCI g1.data s).bind fun (_, r1) =>
      match takeSpaces r1 with
      | ([], _) => none
      | (_ :: _, r2) =>
        p2Group2.findSome? fun g2 =>
          (takeLitCI g2.data r2).bind fun (t2, r3) =>
            let (_, r4) := takeSpaces r3
            p2Group3.findSome? fun g3 =>
              (takeLitCI g3.data r4).map fun (t3, _) => (t2, t3)

def scanP2 : Option Char → List Char → Option (List Char × List Char)
  | _, [] => none
  | prev, c :: cs =>
    (if wordBoundary prev (some c) then matchP2At (c :: cs) else none).orElse
      fun _ => scanP2 (some c) cs

/-- The result assembly of the alternativePattern branch. -/
def bloodTypeFromP2 (m : List Char × List Char) : String :=
  let bloodGroup : String := ⟨m.1.map Char.toUpper⟩
  let rhFactor : String := ⟨lowerStr m.2⟩
  let rh := if rhFactor == "positive" || rhFactor == "+" || rhFactor == "पॉजिटिव"
      || rhFactor == "పాజిటివ్" then "+" else "-"
  bloodGroup ++ rh

def hindiGroup1 : List String := ["ए", "बी", "एबी", "ओ"]

def hindiGroup2 : List String := ["पॉजिटिव", "नेगेटिव", "+", "-"]

def hindiGroup3 : List String := ["खून", "रक्त"]

def teluguGroup1 : List String := ["ఎ", "బి", "ఎబి", "ఓ"]

def teluguGroup2 : List String := ["పాజిటివ్", "నెగటివ్", "+", "-"]

def teluguGroup3 : List String := ["రక్తం"]

/-- Shared shape of the Hindi and Telugu phrase patterns:
(g1)backslash-s*(g2)backslash-s*(g3), returning the captures of groups 1
and 2. -/
def matchPhraseAt (g1s g2s g3s : List String) (s : List Char) :
    Option (List Char × List Char) :=
  g1s.findSome? fun g1 =>
    (takeLitCI g1.data s).bind fun (t1, r1) =>
      let (_, r2) := takeSpaces r1
      g2s.findSome? fun g2 =>
        (takeLitCI g2.data r2).bind fun (t2, r3) =>
          let (_, r4) := takeSpaces r3
          g3s.findSome? fun g3 =>
            (takeLitCI g3.data r4).map fun _ => (t1, t2)

def scanPhrase (g1s g2s g3s : List String) :
    Option Char → List Char → Option (List Char × List Char)
  | _, [] => none
  | prev, c :: cs =>
    (if wordBoundary prev (some c) then matchPhraseAt g1s g2s g3s (c :: cs) else none).orElse
      fun _ => scanPhrase g1s g2s g3s (some c) cs

/-- The result assembly of the Hindi phrase branch. -/
def bloodTypeFromHindi (m : List Char × List Char) : String :=
  let g1 : String := ⟨m.1⟩
  let bloodGroup :=
    if g1 == "ए" then "A" else if g1 == "बी" then "B"
    else if g1 == "एबी" then "AB" else if g1 == "ओ" then "O" else g1
  let g2 : String := ⟨m.2⟩
  let rh := if g2 == "पॉजिटिव" || g2 == "+" then "+" else "-"
  bloodGroup ++ rh

/-- The result assembly of the Telugu phrase branch. -/
def bloodTypeFromTelugu (m : List Char × List Char) : String :=
  let g1 : String := ⟨m.1⟩
  let bloodGroup :=
    if g1 == "ఎ" then "A" else if g1 == "బి" then "B"
    else if g1 == "ఎబి" then "AB" else if g1 == "ఓ" then "O" else g1
  let g2 : String := ⟨m.2⟩
  let rh := if g2 == "పాజిటివ్" || g2 == "+" then "+" else "-"
  bloodGroup ++ rh

/-- extractBloodType: the four patterns in source order, first match wins,
null when none matches. -/
def extractBloodType (text : String) : Option String :=
  match scanP1 none text.data with
  | some m => some (normalizeBloodType m)
  | none =>
    match scanP2 none text.data with
    | some m => some (bloodTypeFromP2 m)
    | none =>
      match scanPhrase hindiGroup1 hindiGroup2 hindiGroup3 none text.data with
      | some m => some (bloodTypeFromHindi m)
      | none =>
        match scanPhrase teluguGroup1 teluguGroup2 teluguGroup3 none text.data with
        | some m => some (bloodTypeFromTelugu m)
        | none => none

/-! ## translateToEnglish

Each source call text.replace(/p1|p2/gi, r) is one rule: a global, leftmost,
non-overlapping replacement where at every position the alternatives are
tried in written order.  The i flag is irrelevant here because every pattern
is caseless Indic script.  The rules are applied in source order, Hindi
first, then Telugu. -/

structure ReplaceRule where
  pats : List (List Char)
  repl : List Char

/-- The first alternative that is a prefix of the input; returns the input
with the match consumed. -/
def firstAltMatch (pats : List (List Char)) (s : List Char) : Option (List Char) :=
  match pats with
  | [] => none
  | p :: ps => if p.isPrefixOf s then some (s.drop p.length) else firstAltMatch ps s

/-- Global replacement, fuel-indexed to keep the recursion structural; the
fuel never runs out when primed with the input length (every step consumes
at least one character because all patterns are nonempty). -/
def replaceAllAux (pats : List (List Char)) (repl : List Char) :
    Nat → List Char → List Char
  | 0, s => s
  | _ + 1, [] => []
  | fuel + 1, c :: cs =>
    match firstAltMatch pats (c :: cs) with
    | some rest => repl ++ replaceAllAux pats repl fuel rest
    | none => c :: replaceAllAux pats repl fuel cs

def applyRule (ru : ReplaceRule) (s : List Char) : List Char :=
  replaceAllAux ru.pats ru.repl s.length s

def applyRules (rules : List ReplaceRule) (s : List Char) : List Char :=
  match rules with
  | [] => s
  | ru :: rus => applyRules rus (applyRule ru s)

def mkRule (pats : List String) (repl : String) : ReplaceRule :=
  ⟨pats.map String.data, repl.data⟩

/-- The translation table of translateToEnglish, in source order. -/
def translationRules : List ReplaceRule :=
  [mkRule ["रक्त", "खून"] "blood",
   mkRule ["रक्तदान"] "blood donation",
   mkRule ["चाहिए", "आवश्यक"] "need",
   mkRule ["तुरंत", "तत्काल"] "urgent",
   mkRule ["आपातकाल"] "emergency",
   mkRule ["बुजुर्ग"] "elderly",
   mkRule ["दवा", "दवाई"] "medicine",
   mkRule ["किराना"] "grocery",
   mkRule ["देखभाल"] "care",
   mkRule ["शिकायत"] "complaint",
   mkRule ["समस्या"] "problem",
   mkRule ["सड़क"] "road",
   mkRule ["बत्ती", "लाइट"] "light",
   mkRule ["पानी"] "water",
   mkRule ["बिजली"] "electricity",
   mkRule ["कचरा"] "garbage",
   mkRule ["अस्पताल"] "hospital",
   mkRule ["मरीज", "रोगी"] "patient",
   mkRule ["सर्जरी", "ऑपरेशन"] "surgery",
   mkRule ["ए पॉजिटिव"] "A positive",
   mkRule ["ए नेगेटिव"] "A negative",
   mkRule ["बी पॉजिटिव"] "B positive",
   mkRule ["बी नेगेटिव"] "B negative",
   mkRule ["एबी पॉजिटिव"] "AB positive",
   mkRule ["एबी नेगेटिव"] "AB negative",
   mkRule ["ओ पॉजिटिव"] "O positive",
   mkRule ["ओ नेगेटिव"] "O negative",
   mkRule ["రక్తం"] "blood",
   mkRule ["రక్తదానం"] "blood donation",
   mkRule ["కావాలి", "అవసరం"] "need",
   mkRule ["అత్యవసరం", "తక్షణం"] "urgent",
   mkRule ["వృద్ధులు", "పెద్దలు"] "elderly",
   mkRule ["మందు", "మందులు"] "medicine",
   mkRule ["కిరాణా"] "grocery",
   mkRule ["సంరక్షణ"] "care",
   mkRule ["ఫిర్యాదు"] "complaint",
   mkRule ["సమస్య"] "problem",
   mkRule ["రోడ్డు"] "road",
   mkRule ["లైట్"] "light",
   mkRule ["నీరు"] "water",
   mkRule ["కరెంట్"] "electricity",
   mkRule ["చెత్త"] "garbage",
   mkRule ["ఆసుపత్రి"] "hospital",
   mkRule ["రోగి"] "patient",
   mkRule ["శస్త్రచికిత్స"] "surgery",
   mkRule ["ఎ పాజిటివ్"] "A positive",
   mkRule ["ఎ నెగటివ్"] "A negative",
   mkRule ["బి పాజిటివ్"] "B positive",
   mkRule ["బి నెగటివ్"] "B negative",
   mkRule ["ఎబి పాజిటివ్"] "AB positive",
   mkRule ["ఎబి నెగటివ్"] "AB negative",
   mkRule ["ఓ పాజిటివ్"] "O positive",
   mkRule ["ఓ నెగటివ్"] "O negative"]

/-- translateToEnglish: text with no Devanagari or Telugu code point is
returned unchanged, otherwise the translation table is applied. -/
def translateToEnglish (text : String) : String :=
  if text.data.any isMarkedChar then ⟨applyRules translationRules text.data⟩
  else text

/-! ## Slot map and JS truthiness

A slot map is the extractedInfo object of the source.  A JS property that is
null or undefined is modelled as none: every read of these objects in the
source is a truthiness test or a default via the or-operator, which treat
null and undefined alike. -/

structure SlotMap where
  bloodType : Option String := none
  unitsNeeded : Option Nat := none
  hospitalName : Option String := none
  patientName : Option String := none
  relationship : Option String := none
  urgencyLevel : Option String := none
  requiredDate : Option String := none
  location : Option String := none
  serviceType : Option String := none
  supportType : Option (List String) := none
  elderName : Option String := none
  age : Option String := none
  frequency : Option String := none
  complaintCategory : Option String := none
  complaintLocation : Option String := none
  severity : Option String := none
  description : Option String := none
deriving DecidableEq, Repr, Inhabited

/-- JS truthiness of a possibly absent string: absent, null and the empty
string are falsy. -/
def jsTruthyS : Option String → Bool
  | none => false
  | some s => s != ""

/-- JS truthiness of a possibly absent number: absent and 0 are falsy. -/
def jsTruthyN : Option Nat → Bool
  | none => false
  | some n => n != 0

/-- JS truthiness of a possibly absent array: every array object, even the
empty one, is truthy. -/
def jsTruthyL : Option (List String) → Bool
  | none => false
  | some _ => true

/-- The JS expression o or-else d on strings. -/
def jsOrS (o : Option String) (d : String) : String :=
  if jsTruthyS o then o.getD d else d

/-- The JS expression o or-else d on numbers. -/
def jsOrN (o : Option Nat) (d : Nat) : Nat :=
  if jsTruthyN o then o.getD d else d

/-- The JS expression o or-else d on arrays. -/
def jsOrL (o : Option (List String)) (d : List String) : List String :=
  if jsTruthyL o then o.getD d else d

/-- Object spread on two slot maps, later properties overriding. -/
def SlotMap.merge (a b : SlotMap) : SlotMap where
  bloodType := b.bloodType.orElse fun _ => a.bloodType
  unitsNeeded := b.unitsNeeded.orElse fun _ => a.unitsNeeded
  hospitalName := b.hospitalName.orElse fun _ => a.hospitalName
  patientName := b.patientName.orElse fun _ => a.patientName
  relationship := b.relationship.orElse fun _ => a.relationship
  urgencyLevel := b.urgencyLevel.orElse fun _ => a.urgencyLevel
  requiredDate := b.requiredDate.orElse fun _ => a.requiredDate
  location := b.location.orElse fun _ => a.location
  serviceType := b.serviceType.orElse fun _ => a.serviceType
  supportType := b.supportType.orElse fun _ => a.supportType
  elderName := b.elderName.orElse fun _ => a.elderName
  age := b.age.orElse fun _ => a.age
  frequency := b.frequency.orElse fun _ => a.frequency
  complaintCategory := b.complaintCategory.orElse fun _ => a.complaintCategory
  complaintLocation := b.complaintLocation.orElse fun _ => a.complaintLocation
  severity := b.severity.orElse fun _ => a.severity
  description := b.description.orElse fun _ => a.description

/-! ## getMissingRequiredInfo -/

/-- getMissingRequiredInfo: the per-category required-slot check, pushing the
missing names in source order. -/
def getMissingRequiredInfo (category : String) (extractedInfo : SlotMap) : List String :=
  (if category == "blood_request" && !jsTruthyS extractedInfo.bloodType
    then ["bloodType"] else []) ++
  (if category == "elder_support" && !jsTruthyS extractedInfo.serviceType
      && !jsTruthyL extractedInfo.supportType
    then ["serviceType"] else []) ++
  (if category == "complaint" && !jsTruthyS extractedInfo.complaintCategory
    then ["complaintCategory"] else [])

/-! ## extractRequestInfo and its regular expressions -/

def parseNatDigits (ds : List Char) : Nat :=
  ds.foldl (fun n c => n * 10 + (c.toNat - '0'.toNat)) 0

/-- Maximal run of decimal digits. -/
def digitRun : List Char → List Char × List Char
  | [] => ([], [])
  | c :: cs =>
    if c.isDigit then
      let (t, r) := digitRun cs
      (c :: t, r)
    else ([], c :: cs)

/-- The units regex: digits, optional whitespace, then unit or pint or bag,
case-insensitively; leftmost match, returning the parsed number.  The greedy
maximal digit run is faithful: a shorter run is followed by a digit, which
none of the unit words can continue with. -/
def findUnits : List Char → Option Nat
  | [] => none
  | c :: cs =>
    (if c.isDigit then
      let (ds, r) := digitRun (c :: cs)
      let (_, r2) := takeSpaces r
      if ["unit", "pint", "bag"].any fun w => (takeLitCI w.data r2).isSome then
        some (parseNatDigits ds)
      else none
     else none).orElse fun _ => findUnits cs

def isAsciiLetter (c : Char) : Bool :=
  ('a' ≤ c && c ≤ 'z') || ('A' ≤ c && c ≤ 'Z')

/-- Maximal run of characters of a class. -/
def classRun (p : Char → Bool) : List Char → List Char × List Char
  | [] => ([], [])
  | c :: cs =>
    if p c then
      let (t, r) := classRun p cs
      (c :: t, r)
    else ([], c :: cs)

/-- Greedy one-or-more class run followed by one of the literal suffix
alternatives: try the longest run first and back off, as the regex engine
does; returns the run-plus-suffix text of the first (longest) success. -/
def runThenSuffixCI (p : Char → Bool) (suffixes : List String) (s : List Char) :
    Option (List Char) :=
  let (run, _) := classRun p s
  go run.length
where
  go : Nat → Option (List Char)
    | 0 => none
    | j + 1 =>
      let pre := s.take (j + 1)
      let post := s.drop (j + 1)
      (suffixes.findSome? fun w =>
        (takeLitCI w.data post).map fun tr => pre ++ tr.1).orElse fun _ => go j

/-- The hospital-name regex of extractRequestInfo: a preposition, mandatory
whitespace, a letter, then letters-or-whitespace ending in a hospital word;
everything case-insensitive and with no word boundaries.  Returns the
trimmed capture. -/
def findHospital : List Char → Option String
  | [] => none
  | c :: cs =>
    (["at", "in", "from"].findSome? fun prep =>
      (takeLitCI prep.data (c :: cs)).bind fun (_, r1) =>
        match takeSpaces r1 with
        | ([], _) => none
        | (_ :: _, r2) =>
          match r2 with
          | d :: r3 =>
            if isAsciiLetter d then
              (runThenSuffixCI (fun x => isAsciiLetter x || isSpaceChar x)
                  ["hospital", "medical", "clinic", "centre", "center"] r3).map
                fun cap => trimJS ⟨d :: cap⟩
            else none
          | [] => none).orElse fun _ => findHospital cs

/-- The age regex: two or three digits (greedy, backing off from three to
two), optional whitespace, then year or yr or age; returns the digit
capture. -/
def findAge : List Char → Option String
  | [] => none
  | c :: cs =>
    (if c.isDigit then
      let (ds, _) := digitRun (c :: cs)
      let tryLen : Nat → Option String := fun k =>
        if k ≤ ds.length then
          let pre := ds.take k
          let post := (c :: cs).drop k
          let (_, r2) := takeSpaces post
          if ["year", "yr", "age"].any fun w => (takeLitCI w.data r2).isSome then
            some ⟨pre⟩
          else none
        else none
      if 2 ≤ ds.length then (tryLen 3).orElse fun _ => tryLen 2 else none
     else none).orElse fun _ => findAge cs

/-- The elder-name regex: for or help, whitespace, an optional my, a
relation word, whitespace, then a letter followed by more letters (greedy,
case-insensitive classes). -/
def findElderName : List Char → Option String
  | [] => none
  | c :: cs =>
    (["for", "help"].findSome? fun lead =>
      (takeLitCI lead.data (c :: cs)).bind fun (_, r1) =>
        match takeSpaces r1 with
        | ([], _) => none
        | (_ :: _, r2) =>
          let afterMy :=
            ((takeLitCI "my".data r2).bind fun (_, rm) =>
              match takeSpaces rm with
              | ([], _) => none
              | (_ :: _, rm2) => some rm2).getD r2
          ["mother", "father", "grandmother", "grandfather", "grandma", "grandpa"].findSome?
            fun rel =>
              (takeLitCI rel.data afterMy).bind fun (_, r3) =>
                match takeSpaces r3 with
                | ([], _) => none
                | (_ :: _, r4) =>
                  match r4 with
                  | d :: r5 =>
                    if isAsciiLetter d then
                      match classRun isAsciiLetter r5 with
                      | ([], _) => none
                      | (run, _) => some ⟨d :: run⟩
                    else none
                  | [] => none).orElse fun _ => findElderName cs

/-- The complaint-location regex (the only one in the file without the i
flag): a lowercase preposition, whitespace, an uppercase letter, then a
greedy run of letters, whitespace and commas; returns the trimmed capture. -/
def findComplaintLocation : List Char → Option String
  | [] => none
  | c :: cs =>
    (["at", "in", "near"].findSome? fun prep =>
      (matchLitExact prep.data (c :: cs)).bind fun r1 =>
        match takeSpaces r1 with
        | ([], _) => none
        | (_ :: _, r2) =>
          match r2 with
          | d :: r3 =>
            if 'A' ≤ d && d ≤ 'Z' then
              let (run, _) := classRun (fun x => isAsciiLetter x || isSpaceChar x || x == ',') r3
              some (trimJS ⟨d :: run⟩)
            else none
          | [] => none).orElse fun _ => findComplaintLocation cs
where
  matchLitExact : List Char → List Char → Option (List Char)
    | [], s => some s
    | _ :: _, [] => none
    | p :: ps, c' :: cs' => if p == c' then matchLitExact ps cs' else none

/-- extractRequestInfo: category-scoped slot extraction over the prior
context, following the source section by section. -/
def extractRequestInfo (message : String) (category : String)
    (conversationContext : SlotMap) : SlotMap := Id.run do
  let mut info := conversationContext
  let lowerMessage := strLower message
  if category == "blood_request" then
    match extractBloodType message with
    | some bt => info := { info with bloodType := some bt }
    | none => pure ()
    match findUnits message.data with
    | some n => info := { info with unitsNeeded := some n }
    | none => pure ()
    match findHospital message.data with
    | some h => info := { info with hospitalName := some h }
    | none => pure ()
    if strContains lowerMessage "my mother" || strContains lowerMessage "mom" then
      info := { info with relationship := some "Mother" }
    else if strContains lowerMessage "my father" || strContains lowerMessage "dad" then
      info := { info with relationship := some "Father" }
    else if strContains lowerMessage "my brother" then
      info := { info with relationship := some "Brother" }
    else if strContains lowerMessage "my sister" then
      info := { info with relationship := some "Sister" }
    else if strContains lowerMessage "my friend" then
      info := { info with relationship := some "Friend" }
    else if strContains lowerMessage "myself" || strContains lowerMessage "for me" then
      info := { info with relationship := some "Self" }
    if strContains lowerMessage "urgent" || strContains lowerMessage "emergency"
        || strContains lowerMessage "immediately" then
      info := { info with urgencyLevel := some "urgent", requiredDate := some "now" }
    else if strContains lowerMessage "today" then
      info := { info with requiredDate := some "now" }
    else if strContains lowerMessage "tomorrow" then
      info := { info with requiredDate := some "tomorrow" }
  if category == "elder_support" then
    match findAge message.data with
    | some a => info := { info with age := some a }
    | none => pure ()
    match findElderName message.data with
    | some n => info := { info with elderName := some n }
    | none => pure ()
    if strContains lowerMessage "medicine" || strContains lowerMessage "medication"
        || strContains lowerMessage "pills" then
      info := { info with serviceType := some "Medicine Delivery", supportType := some ["medical"] }
    else if strContains lowerMessage "doctor" || strContains lowerMessage "appointment"
        || strContains lowerMessage "medical" then
      info := { info with serviceType := some "Medical Appointment", supportType := some ["medical"] }
    else if strContains lowerMessage "food" || strContains lowerMessage "meal"
        || strContains lowerMessage "cooking" || strContains lowerMessage "grocery" then
      info := { info with serviceType := some "Grocery Shopping", supportType := some ["food"] }
    else if strContains lowerMessage "clean" || strContains lowerMessage "hygiene"
        || strContains lowerMessage "household" then
      info := { info with serviceType := some "Household Help", supportType := some ["hygiene"] }
    else if strContains lowerMessage "companion" || strContains lowerMessage "company"
        || strContains lowerMessage "talk" then
      info := { info with serviceType := some "Companionship", supportType := some ["companionship"] }
    else if strContains lowerMessage "emergency" || strContains lowerMessage "urgent" then
      info := { info with serviceType := some "Emergency Assistance", supportType := some ["emergency"] }
    if strContains lowerMessage "daily" || strContains lowerMessage "every day" then
      info := { info with frequency := some "daily" }
    else if strContains lowerMessage "weekly" || strContains lowerMessage "once a week" then
      info := { info with frequency := some "weekly" }
    else if strContains lowerMessage "monthly" then
      info := { info with frequency := some "monthly" }
    else if strContains lowerMessage "one time" || strContains lowerMessage "just once" then
      info := { info with frequency := some "one-time" }
  if category == "complaint" then
    match findComplaintLocation message.data with
    | some loc => info := { info with complaintLocation := some loc }
    | none => pure ()
    if strContains lowerMessage "road" || strContains lowerMessage "pothole"
        || strContains lowerMessage "pot hole" || strContains lowerMessage "street"
        || strContains lowerMessage "pavement" then
      info := { info with complaintCategory := some "Road Maintenance" }
    else if strContains lowerMessage "water" || strContains lowerMessage "drainage"
        || strContains lowerMessage "leak" then
      info := { info with complaintCategory := some "Water Supply" }
    else if strContains lowerMessage "garbage" || strContains lowerMessage "waste"
        || strContains lowerMessage "trash" || strContains lowerMessage "dump" then
      info := { info with complaintCategory := some "Waste Management" }
    else if strContains lowerMessage "electricity" || strContains lowerMessage "power"
        || strContains lowerMessage "light" || strContains lowerMessage "electric" then
      info := { info with complaintCategory := some "Electricity" }
    else if strContains lowerMessage "safety" || strContains lowerMessage "crime"
        || strContains lowerMessage "security" then
      info := { info with complaintCategory := some "Public Safety" }
  return info

/-! ## Title and description generation -/

/-- replace(/backslash-s+/g, a single space). -/
def collapseWs : List Char → List Char
  | [] => []
  | [c] => [if isSpaceChar c then ' ' else c]
  | c :: c2 :: cs =>
    if isSpaceChar c && isSpaceChar c2 then collapseWs (c2 :: cs)
    else (if isSpaceChar c then ' ' else c) :: collapseWs (c2 :: cs)

/-- toSentenceCase: compact whitespace, trim, capitalize the first letter. -/
def toSentenceCase (text : String) : String :=
  let t := trimJS ⟨collapseWs text.data⟩
  match t.data with
  | [] => ""
  | c :: cs => ⟨c.toUpper :: cs⟩

def lastSpaceIdx (l : List Char) : Option Nat :=
  (l.reverse.findIdx? fun c => c == ' ').map fun i => l.length - 1 - i

/-- summarize: sentence-case then cut at the last space before maxLen when
that space sits beyond index 50. -/
def summarize (text : String) (maxLen : Nat) : String :=
  let clean := toSentenceCase text
  if clean.data.length ≤ maxLen then clean
  else
    let cut := clean.data.take maxLen
    let kept :=
      match lastSpaceIdx cut with
      | some i => if 50 < i then cut.take i else cut
      | none => cut
    ⟨kept⟩ ++ "..."

/-- The extractLocation regex: a word-boundary preposition, mandatory
whitespace, a letter, then two to forty letters-or-whitespace (greedy, with
nothing after to back off for); the capture is whitespace-compacted and
trimmed. -/
def extractLocation (text : String) : Option String :=
  go none text.data
where
  go : Option Char → List Char → Option String
    | _, [] => none
    | prev, c :: cs =>
      (if !isWordOpt prev then
        ["in", "at", "near"].findSome? fun prep =>
          (takeLitCI prep.data (c :: cs)).bind fun (_, r1) =>
            match takeSpaces r1 with
            | ([], _) => none
            | (_ :: _, r2) =>
              match r2 with
              | d :: r3 =>
                if isAsciiLetter d then
                  let (run, _) := classRun (fun x => isAsciiLetter x || isSpaceChar x) r3
                  if 2 ≤ run.length then
                    some (trimJS ⟨collapseWs (d :: run.take 40)⟩)
                  else none
                else none
              | [] => none
       else none).orElse fun _ => go (some c) cs

/-- Case-insensitive test a then optional whitespace then b, the shape of
/street backslash-s* light/i and friends. -/
def containsSpacedPairCI (a b : String) (s : String) : Bool :=
  go s.data
where
  go : List Char → Bool
    | [] => a.data.isEmpty && b.data.isEmpty
    | c :: cs =>
      (match takeLitCI a.data (c :: cs) with
       | some (_, r1) =>
         let (_, r2) := takeSpaces r1
         (takeLitCI b.data r2).isSome
       | none => false) || go cs

/-- The test /holes? backslash-s+ in backslash-s+ road/i: hole, an optional
s, mandatory whitespace, in, mandatory whitespace, road. -/
def containsHolesInRoad (s : String) : Bool :=
  go s.data
where
  after (r : List Char) : Bool :=
    match takeSpaces r with
    | ([], _) => false
    | (_ :: _, r2) =>
      match takeLitCI "in".data r2 with
      | some (_, r3) =>
        match takeSpaces r3 with
        | ([], _) => false
        | (_ :: _, r4) => (takeLitCI "road".data r4).isSome
      | none => false
  go : List Char → Bool
    | [] => false
    | c :: cs =>
      (match takeLitCI "hole".data (c :: cs) with
       | some (_, r1) =>
         (match takeLitCI "s".data r1 with
          | some (_, r1s) => after r1s || after r1
          | none => after r1)
       | none => false) || go cs

def strContainsAnyCI (s : String) (pats : List String) : Bool :=
  pats.any fun p => containsSubCI p.data s.data

def baseByCatList : List (String × String) :=
  [("Road Maintenance", "Road maintenance issue"),
   ("Water Supply", "Water supply issue"),
   ("Sanitation", "Sanitation issue"),
   ("Electricity", "Electricity issue"),
   ("Waste Management", "Waste management issue"),
   ("Public Safety", "Public safety issue"),
   ("Healthcare", "Healthcare issue"),
   ("Education", "Education issue"),
   ("Transportation", "Transportation issue"),
   ("Infrastructure", "Infrastructure issue"),
   ("Other", "Community issue")]

structure TitleArgs where
  message : String
  type : String
  priority : String
  bloodType : Option String := none
  complaintCategory : Option String := none

/-- buildTitleAndDescription, following the source branch for branch.  A
category absent from baseByCat yields the JS undefined, which the later
string contexts coerce to the text undefined. -/
def buildTitleAndDescription (args : TitleArgs) : String × String :=
  let location := extractLocation args.message
  if args.type == "blood" then
    let bt := jsOrS args.bloodType "blood"
    let title := "Need " ++ bt ++ " blood" ++
      (match location with | some l => " - " ++ l | none => "")
    let description := "Request for " ++ bt ++ " blood" ++
      (match location with | some l => " in " ++ l | none => "") ++ "."
    (title, description)
  else if args.type == "elder_support" then
    let kind :=
      if strContainsAnyCI args.message ["medicine", "tablet", "paracetamol", "prescription"] then
        "Medicine delivery needed"
      else if strContainsAnyCI args.message ["grocery", "vegetable", "milk", "shopping"] then
        "Grocery help needed"
      else if strContainsAnyCI args.message ["appointment", "hospital", "clinic", "checkup"] then
        "Medical appointment help"
      else if strContainsAnyCI args.message ["house", "clean", "cook", "laundry", "household"] then
        "Household help needed"
      else "Elder support needed"
    let title := kind ++ (match location with | some l => " - " ++ l | none => "")
    let description := "Elder support request: " ++ kind ++
      (match location with | some l => " in " ++ l | none => "") ++ "."
    (title, description)
  else if args.type == "complaint" then
    let c := jsOrS args.complaintCategory "Other"
    let baseTitle :=
      if containsSpacedPairCI "street" "light" args.message then "Street lights not working"
      else if strContainsAnyCI args.message ["pothole"] || containsHolesInRoad args.message then
        "Potholes on road"
      else if strContainsAnyCI args.message ["garbage", "trash", "waste"] then
        "Garbage accumulation issue"
      else if containsSpacedPairCI "water" "leak" args.message
          || containsSpacedPairCI "no" "water" args.message then
        "Water supply problem"
      else if containsSpacedPairCI "power" "cut" args.message
          || containsSpacedPairCI "electricity" "outage" args.message
          || strContainsAnyCI args.message ["transformer"] then
        "Electricity outage issue"
      else (baseByCatList.lookup c).getD "undefined"
    let title := baseTitle ++ (match location with | some l => " - " ++ l | none => "")
    let description := title ++ ". Category: " ++ c ++ "."
    (title, description)
  else
    let title := summarize args.message 80
    (title, title)

/-! ## Response templates -/

/-- generateFollowUpQuestion: the per-category, per-slot template table. -/
def generateFollowUpQuestion (category missingField : String) (extractedInfo : SlotMap) :
    String :=
  let fallback := "Could you provide more details about your request?"
  if category == "blood_request" then
    if missingField == "bloodType" then
      "I understand you need blood. What blood type is required? (e.g., A+, B+, O+, AB+, A-, B-, O-, AB-)"
    else if missingField == "unitsNeeded" then
      "How many units of " ++ jsOrS extractedInfo.bloodType "blood" ++ " do you need?"
    else if missingField == "hospitalName" then
      "Which hospital or medical center is this for?"
    else if missingField == "relationship" then
      "Who needs the blood? (e.g., myself, mother, father, friend)"
    else if missingField == "urgencyLevel" then
      "When is the blood needed? (e.g., urgent/today, tomorrow, this week)"
    else fallback
  else if category == "elder_support" then
    if missingField == "serviceType" then
      "What kind of support do you need?\n• Medical Care\n• Food & Nutrition\n• Personal Hygiene\n• Companionship\n• Other"
    else if missingField == "age" then
      "What is the age of the person needing support?"
    else if missingField == "frequency" then
      "How often is support needed? (e.g., daily, weekly, one-time)"
    else fallback
  else if category == "complaint" then
    if missingField == "complaintCategory" then
      "What type of issue are you reporting?\n• Road Maintenance\n• Water Supply\n• Waste Management\n• Electricity\n• Public Safety\n• Other"
    else if missingField == "complaintLocation" then
      "Where is this issue located? (Please provide the address or area)"
    else fallback
  else fallback

/-- The JS string interpolation of a possibly undefined value. -/
def jsShow (o : Option String) : String := o.getD "undefined"

/-- generateSuccessMessage: the per-category confirmation template. -/
def generateSuccessMessage (category : String) (extractedInfo : SlotMap)
    (requestId : String) : String :=
  if category == "blood_request" then
    "✅ **Blood Request Created Successfully!**\n\nYour request for " ++
    jsShow extractedInfo.bloodType ++ " blood has been submitted.\n\n**Details:**\n• Blood Type: " ++
    jsShow extractedInfo.bloodType ++ "\n• Units: " ++
    toString (jsOrN extractedInfo.unitsNeeded 1) ++ "\n• Hospital: " ++
    jsOrS extractedInfo.hospitalName "To be specified" ++ "\n• Request ID: " ++ requestId ++
    "\n\nVolunteers and donors will be notified immediately. You should receive responses soon!"
  else if category == "elder_support" then
    "✅ **Elder Support Request Created!**\n\nYour request for elder support has been submitted.\n\n**Details:**\n• Service: " ++
    jsOrS extractedInfo.serviceType "Support needed" ++ "\n• Request ID: " ++ requestId ++
    "\n\nVolunteers in your area will be notified and can accept your request."
  else if category == "complaint" then
    "✅ **Complaint Registered Successfully!**\n\nYour complaint has been filed.\n\n**Details:**\n• Category: " ++
    jsOrS extractedInfo.complaintCategory "General" ++ "\n• Request ID: " ++ requestId ++
    "\n\nThe appropriate department will review your complaint and take action."
  else "✅ Request created successfully! Request ID: " ++ requestId

/-- generateGeneralResponse: the keyed conversational templates for
general inquiries. -/
def generateGeneralResponse (message : String) : String :=
  let lowerMessage := trimJS (strLower message)
  if ["hi", "hello", "hey", "good morning", "good afternoon", "good evening",
      "namaste"].any (fun g => lowerMessage == g) then
    "Hello! 👋 I'm your SevaLink AI assistant. I'm here to help you with community services and support.\n\n**I can help you with:**\n• Blood donation requests\n• Elder care support\n• Filing complaints\n• General information\n\nHow can I assist you today?"
  else if strContainsAny lowerMessage ["how are you", "how do you do"] then
    "I'm doing great, thank you for asking! 😊 I'm here and ready to help you with any community services you need.\n\nIs there anything specific I can assist you with today?"
  else if strContainsAny lowerMessage ["thank you", "thanks", "thx"] then
    "You're very welcome! 😊 I'm glad I could help.\n\nIf you need any other assistance with community services, feel free to ask anytime!"
  else if strContainsAny lowerMessage
      ["what can you do", "what do you do", "help me", "capabilities"] then
    "I'm your SevaLink AI assistant! Here's what I can help you with:\n\n🩸 **Blood Requests** - Find blood donors quickly\n👴 **Elder Support** - Get help for elderly care\n📝 **Complaints** - Report community issues\n❓ **Information** - Answer questions about services\n\n**Just tell me what you need!** For example:\n• \"I need B+ blood urgently\"\n• \"My grandmother needs medicine delivery\"\n• \"Street lights not working in my area\""
  else if strContainsAny lowerMessage ["what is sevalink", "about sevalink", "sevalink"] then
    "SevaLink is a community service platform that connects people who need help with volunteers who can provide assistance.\n\n**Our Services:**\n• Blood donation coordination\n• Elder care support\n• Community complaint management\n• Emergency assistance\n\nWe're here to make your community stronger and more connected! 🤝"
  else if strContainsAny lowerMessage ["what is", "tell me about", "explain"] then
    if strContainsAny lowerMessage ["mitochondria", "mitchondria"] then
      "Mitochondria are often called the \"powerhouses\" of the cell! 🔋\n\nThey're tiny structures inside cells that produce energy (ATP) for cellular processes. They have their own DNA and are essential for life.\n\n**Fun fact:** Mitochondria are thought to have evolved from ancient bacteria!\n\nIs there anything else you'd like to know?"
    else if strContainsAny lowerMessage ["rbc", "red blood cells"] then
      "RBC stands for Red Blood Cells! 🩸\n\nThey're the most common type of blood cell and carry oxygen from your lungs to the rest of your body using a protein called hemoglobin.\n\n**Key facts:**\n• They live about 120 days\n• They give blood its red color\n• Normal count: 4.5-5.5 million per microliter\n\nSpeaking of blood - if you need blood donation help, I can assist with that too!"
    else
      "That's an interesting question! While I'd love to help with general knowledge, I'm specifically designed to assist with community services.\n\n**I'm best at helping with:**\n• Blood donation requests\n• Elder care support\n• Community complaints\n• Service information\n\nIs there a community service I can help you with?"
  else
    "I understand you're reaching out! 😊 While I'm here to chat, I'm specifically designed to help with community services.\n\n**I can assist you with:**\n• Blood donation requests\n• Elder care support\n• Filing complaints\n• Emergency assistance\n\nIs there a specific service you need help with today?"

/-- generateFallbackResponse: canned per-category responses when the AI
collaborator is unavailable, delegating general_inquiry to the
conversational responder. -/
def generateFallbackResponse (category message : String) : String :=
  if category == "blood_request" then
    "✅ **Blood Request Created Successfully!**\n\nI understand you need blood donation assistance. Your request has been automatically created and saved to your account.\n\n**What happens next:**\n• Volunteers will be notified immediately\n• Check \"My Requests\" in your dashboard to track progress\n• You'll receive calls/messages from potential donors\n• Keep your phone accessible\n\n**Estimated Response Time:** 2-4 hours for urgent requests\n\n💡 **Tip:** Visit Dashboard → My Requests to see your submission details."
  else if category == "elder_support" then
    "✅ **Elder Support Request Created!**\n\nI understand you need assistance for elderly care. Your request has been automatically saved and volunteers will be notified.\n\n**What happens next:**\n• Volunteers specializing in elder care will be notified\n• You'll receive contact from suitable helpers\n• Check \"My Requests\" in your dashboard for updates\n• Response typically within 4-6 hours\n\n💡 **Tip:** You can add more details by editing your request in the dashboard."
  else if category == "complaint" then
    "✅ **Complaint Registered Successfully!**\n\nI've received and logged your complaint in the system. Your issue has been automatically created as a formal complaint.\n\n**What happens next:**\n• Relevant authorities will be notified\n• You'll receive updates on resolution progress\n• Track status in \"My Requests\" section\n• Expected acknowledgment within 24 hours\n\n💡 **Tip:** Reference your complaint ID in future communications."
  else if category == "emergency" then
    "🚨 **Emergency Request Created - HIGH PRIORITY!**\n\nI understand this is urgent. Your emergency request has been automatically created with highest priority.\n\n**Immediate Actions:**\n• Emergency volunteers are being notified NOW\n• You should receive contact within 30 minutes\n• Your request is marked as URGENT in the system\n\n**For life-threatening emergencies, please also call 108 (ambulance) or 112.**"
  else generateGeneralResponse message

/-! ## Request assembly (the effective, later declaration of
createRequestFromChatWithInfo) -/

/-- shouldCreateRequest: only the three request categories lead to entity
creation. -/
def shouldCreateRequest (category : String) (_message : String) : Bool :=
  ["blood_request", "elder_support", "complaint"].contains category

structure UserRec where
  name : String
  phone : Option String
  email : String
deriving DecidableEq, Repr

/-- The persisted request entity.  Dates are opaque tokens: the source only
constructs them (new Date() is the token now, the one-day-later due date the
token tomorrow) and never computes with them before persistence. -/
structure RequestData where
  type : String
  name : String
  phone : String
  email : String
  address : String
  city : String
  state : String
  pincode : String
  country : String
  priority : String
  status : String
  bloodType : Option String := none
  urgencyLevel : Option String := none
  unitsNeeded : Option Nat := none
  hospitalName : Option String := none
  patientName : Option String := none
  relationship : Option String := none
  medicalCondition : Option String := none
  contactNumber : Option String := none
  requiredDate : Option String := none
  additionalNotes : Option String := none
  serviceType : Option String := none
  elderName : Option String := none
  age : Option String := none
  supportType : Option (List String) := none
  frequency : Option String := none
  timeSlot : Option String := none
  specialRequirements : Option String := none
  dueDate : Option String := none
  category : Option String := none
  severity : Option String := none
  title : Option String := none
  description : Option String := none
  source : String := ""
deriving DecidableEq, Repr

/-- createRequestFromChatWithInfo - the later of the two source declarations
of this name, the one JavaScript hoisting makes effective.  It validates the
blood type before any assembly and never consults extractUrgency. -/
def createRequestFromChatWithInfo (userLookup : Option UserRec)
    (message category priority : String) (extractedInfo : SlotMap) :
    Except String RequestData :=
  match userLookup with
  | none => .error "User not found"
  | some user =>
  if category == "blood_request" && !jsTruthyS extractedInfo.bloodType then
    .error "Cannot create blood request without blood type"
  else
  let requestType := if category == "blood_request" then "blood" else category
  let mappedPriority :=
    if priority == "urgent" then "urgent" else if priority == "high" then "high" else "medium"
  let base : RequestData := {
    type := requestType
    name := user.name
    phone := jsOrS user.phone "Not provided"
    email := user.email
    address := "Potti Sriramulu College Road, Vinchipeta"
    city := "Vijayawada"
    state := "Andhra Pradesh"
    pincode := "520001"
    country := "India"
    priority := mappedPriority
    status := "pending" }
  let rd :=
    if requestType == "blood" then
      let englishMessage := translateToEnglish message
      let td := buildTitleAndDescription
        { message := englishMessage, type := "blood", priority := priority,
          bloodType := extractedInfo.bloodType }
      { base with
        bloodType := extractedInfo.bloodType
        urgencyLevel := some (jsOrS extractedInfo.urgencyLevel
          (if priority == "urgent" then "urgent" else "high"))
        unitsNeeded := some (jsOrN extractedInfo.unitsNeeded 1)
        hospitalName := some (jsOrS extractedInfo.hospitalName "To be confirmed")
        patientName := some (jsOrS extractedInfo.patientName user.name)
        relationship := some (jsOrS extractedInfo.relationship "Self")
        medicalCondition := some englishMessage
        contactNumber := some (jsOrS user.phone "Not provided")
        requiredDate := some (jsOrS extractedInfo.requiredDate "now")
        additionalNotes := some englishMessage
        title := some td.1
        description := some td.2 }
    else if requestType == "elder_support" then
      let englishMessage := translateToEnglish message
      let td := buildTitleAndDescription
        { message := englishMessage, type := "elder_support", priority := priority }
      { base with
        serviceType := some (jsOrS extractedInfo.serviceType "Other")
        elderName := some (jsOrS extractedInfo.elderName user.name)
        age := some (jsOrS extractedInfo.age "Not specified")
        supportType := some (jsOrL extractedInfo.supportType ["other"])
        frequency := some (jsOrS extractedInfo.frequency "one-time")
        timeSlot := some "flexible"
        specialRequirements := some englishMessage
        dueDate := some "tomorrow"
        title := some td.1
        description := some td.2 }
    else if requestType == "complaint" then
      let englishMessage := translateToEnglish message
      let c := jsOrS extractedInfo.complaintCategory "Other"
      let td := buildTitleAndDescription
        { message := englishMessage, type := "complaint", priority := priority,
          complaintCategory := some c }
      { base with
        category := some c
        severity := some (if priority == "urgent" then "high" else "medium")
        title := some td.1
        description := some td.2 }
    else base
  .ok { rd with source := "text_chat" }

/-! ## The POST /text conversation turn

The AI augmentation collaborator (utils/geminiVoiceService) is repository
code that is not among the sources under verification; following the spec it
is modelled as an oracle the turn is parameterized over. -/

/-- Modelled from the spec: the result shape of
geminiVoiceService.processTextWithGemini per spec section 6
(classify returns category, priority and a direct response, and the
provenance flag; the call may also throw, which the caller catches). -/
structure GeminiText where
  success : Bool
  response : Option String
  category : Option String
  priority : Option String
  usingFallback : Bool
deriving DecidableEq, Repr

/-- Modelled from the spec: the result shape of
geminiVoiceService.extractInformationWithGemini per spec section 6 -
extractedInfo, missingRequired, needsMoreInfo, success and usingFallback,
with no further constraint tying the fields together. -/
structure GeminiExtraction where
  success : Bool
  usingFallback : Bool
  extractedInfo : SlotMap
  missingRequired : List String
  needsMoreInfo : Bool
deriving DecidableEq, Repr

/-- Modelled from the spec: the result shape of
geminiVoiceService.generateFollowUpQuestion per spec section 6. -/
structure GeminiFollowUp where
  success : Bool
  usingFallback : Bool
  question : String
deriving DecidableEq, Repr

/-- Modelled from the spec: the behaviour of the external AI collaborator
during one turn.  processText is none when the call throws (the caller
catches and falls back); confirm is the confirmation-message call, outer
none when it throws, the inner option its response field. -/
structure AIOracle where
  processText : Option GeminiText
  extract : GeminiExtraction
  followUp : GeminiFollowUp
  confirm : Option (Option String)
deriving DecidableEq, Repr

/-- An oracle whose every call fails: the pure heuristic fallback path. -/
def aiDown : AIOracle where
  processText := none
  extract := { success := false, usingFallback := true, extractedInfo := {},
               missingRequired := [], needsMoreInfo := false }
  followUp := { success := false, usingFallback := true, question := "" }
  confirm := none

/-- The outcome of the branching part of a turn. -/
structure BranchOut where
  createdRequest : Option RequestData
  createdRequestId : Option String
  responseMessage : String
  savedPendingContext : Option SlotMap
deriving DecidableEq, Repr

/-- The branch of the /text handler after category, priority and extraction
are decided: ask a follow-up, finalize (catching the finalize error into an
apology message), or reply generally. -/
def conversationStep (oracle : AIOracle) (userLookup : Option UserRec) (newId : String)
    (trimmed finalCategory finalPriority : String) (extractedInfo : SlotMap)
    (missingInfo : List String) (needsMoreInfo : Bool)
    (geminiResponse : Option String) : BranchOut :=
  if shouldCreateRequest finalCategory trimmed then
    if needsMoreInfo && decide (0 < missingInfo.length) then
      let q :=
        if oracle.followUp.success && !oracle.followUp.usingFallback then
          oracle.followUp.question
        else generateFollowUpQuestion finalCategory (missingInfo.headD "") extractedInfo
      { createdRequest := none, createdRequestId := none, responseMessage := q,
        savedPendingContext := some extractedInfo }
    else
      match createRequestFromChatWithInfo userLookup trimmed finalCategory finalPriority
          extractedInfo with
      | .ok rd =>
        { createdRequest := some rd, createdRequestId := some newId,
          responseMessage := jsOrS (oracle.confirm.bind id)
            (generateSuccessMessage finalCategory extractedInfo newId),
          savedPendingContext := none }
      | .error _ =>
        { createdRequest := none, createdRequestId := none,
          responseMessage :=
            "I understood your request, but encountered an error saving it. Please try again.",
          savedPendingContext := none }
  else
    { createdRequest := none, createdRequestId := none,
      responseMessage := jsOrS geminiResponse "How can I help you today?",
      savedPendingContext := none }

/-- The response payload of one /text turn (the fields of responseData the
pipeline decides, plus the saved pending context and the top-level message). -/
structure TurnResult where
  category : String
  priority : String
  extractedInfo : SlotMap
  missingInfo : List String
  needsMoreInfo : Bool
  responseMessage : String
  createdRequest : Option RequestData
  createdRequestId : Option String
  usingFallback : Bool
  savedPendingContext : Option SlotMap
  topMessage : String
deriving DecidableEq, Repr, Inhabited

/-- The POST /text handler: fallback classification, category and priority
decision, AI-or-heuristic extraction, then the conversation branch.  The
error value models the immediate 400 reply for an empty message. -/
def textHandler (message : String) (conversationContext : SlotMap) (oracle : AIOracle)
    (userLookup : Option UserRec) (newId : String) : Except String TurnResult :=
  if trimJS message == "" then .error "Message text is required"
  else
    let trimmed := trimJS message
    let geminiResult : GeminiText :=
      match oracle.processText with
      | some g => g
      | none =>
        let category := categorizeRequest trimmed
        { success := true
          response := some (generateFallbackResponse category trimmed)
          category := some category
          priority := some (determinePriority trimmed)
          usingFallback := true }
    let heuristicCategory := categorizeRequest trimmed
    let finalCategory :=
      if jsTruthyS geminiResult.category && geminiResult.category.getD "" != "general_inquiry"
      then geminiResult.category.getD "" else heuristicCategory
    let finalPriority := jsOrS geminiResult.priority (determinePriority trimmed)
    let stage :=
      if shouldCreateRequest finalCategory trimmed then
        let ge := oracle.extract
        if ge.success && !ge.usingFallback then
          (conversationContext.merge ge.extractedInfo, ge.missingRequired, ge.needsMoreInfo)
        else
          let e1 := extractRequestInfo trimmed finalCategory conversationContext
          let e2 :=
            if !jsTruthyS e1.urgencyLevel then { e1 with urgencyLevel := extractUrgency trimmed }
            else e1
          let mi := getMissingRequiredInfo finalCategory e2
          (e2, mi, decide (0 < mi.length))
      else (({} : SlotMap), ([] : List String), false)
    let extractedInfo := stage.1
    let missingInfo := stage.2.1
    let needsMoreInfo := stage.2.2
    let br := conversationStep oracle userLookup newId trimmed finalCategory finalPriority
      extractedInfo missingInfo needsMoreInfo geminiResult.response
    .ok {
      category := finalCategory
      priority := finalPriority
      extractedInfo := extractedInfo
      missingInfo := missingInfo
      needsMoreInfo := needsMoreInfo
      responseMessage := br.responseMessage
      createdRequest := br.createdRequest
      createdRequestId := br.createdRequestId
      usingFallback := geminiResult.usingFallback
      savedPendingContext := br.savedPendingContext
      topMessage :=
        if br.createdRequest.isSome then "Request created successfully"
        else if needsMoreInfo then "Need more information" else "Message processed" }

/-! ## Idempotence of translateToEnglish

The structural facts making the second pass a no-op: every pattern of the
table is nonempty, starts with a Devanagari or Telugu character and consists
of such characters and spaces only, while every replacement is nonempty,
starts with a character that is neither such nor a space, and contains no
Devanagari or Telugu character.  Hence a replacement pass can neither leave
nor re-create an occurrence of any pattern. -/

def markedOrSpace (c : Char) : Bool := isMarkedChar c || c == ' '

/-- A pattern suitable for the idempotence argument: nonempty, marked head,
every character marked or a space. -/
def goodPat (p : List Char) : Bool :=
  (match p.head? with
   | some c => isMarkedChar c
   | none => false) &&
  p.all markedOrSpace

/-- A replacement suitable for the idempotence argument: nonempty, head
neither marked nor a space, no marked character at all. -/
def goodRepl (r : List Char) : Bool :=
  (match r.head? with
   | some c => !markedOrSpace c
   | none => false) &&
  r.all fun c => !isMarkedChar c

def goodRule (ru : ReplaceRule) : Bool :=
  ru.pats.all goodPat && goodRepl ru.repl

lemma translationRules_good : translationRules.all goodRule = true := by decide

lemma isPrefixOf_true {p s : List Char} : p.isPrefixOf s = true ↔ p <+: s := by
  simp

lemma goodPat_ne_nil {p : List Char} (h : goodPat p = true) : p ≠ [] := by
  intro hnil; subst hnil; simp [goodPat] at h

lemma goodPat_head {p : List Char} {c : Char} {cs : List Char}
    (h : goodPat p = true) (hp : p = c :: cs) : isMarkedChar c = true := by
  subst hp
  rw [goodPat, Bool.and_eq_true] at h
  simpa using h.1

lemma goodPat_all {p : List Char} (h : goodPat p = true) :
    ∀ c ∈ p, markedOrSpace c = true := by
  rw [goodPat, Bool.and_eq_true] at h
  intro c hc
  simpa using List.all_eq_true.mp h.2 c hc

lemma goodRepl_parts {r : List Char} (h : goodRepl r = true) :
    (∃ c cs, r = c :: cs ∧ markedOrSpace c = false) ∧
      ∀ c ∈ r, isMarkedChar c = false := by
  rw [goodRepl, Bool.and_eq_true] at h
  obtain ⟨h1, h2⟩ := h
  refine ⟨?_, ?_⟩
  · cases r with
    | nil => simp at h1
    | cons c cs => exact ⟨c, cs, rfl, by simpa using h1⟩
  · intro c hc
    have := List.all_eq_true.mp h2 c hc
    simpa using this

lemma firstAltMatch_eq_some {pats : List (List Char)} {s rest : List Char}
    (h : firstAltMatch pats s = some rest) :
    ∃ p, p ∈ pats ∧ ∃ w, s = p ++ w ∧ rest = w := by
  induction pats with
  | nil => simp [firstAltMatch] at h
  | cons p ps ih =>
    rw [firstAltMatch] at h
    by_cases hp : p.isPrefixOf s
    · rw [if_pos hp] at h
      obtain ⟨w, hw⟩ := isPrefixOf_true.mp hp
      refine ⟨p, List.mem_cons_self .., w, hw.symm, ?_⟩
      have : rest = s.drop p.length := by simpa using h.symm
      rw [this, ← hw, List.drop_left]
    · rw [if_neg hp] at h
      obtain ⟨q, hq, w, hw, hr⟩ := ih h
      exact ⟨q, List.mem_cons_of_mem _ hq, w, hw, hr⟩

lemma firstAltMatch_isSome_of_prefix {pats : List (List Char)} {p s : List Char}
    (hp : p ∈ pats) (hpre : p <+: s) : firstAltMatch pats s ≠ none := by
  induction pats with
  | nil => simp at hp
  | cons q qs ih =>
    rw [firstAltMatch]
    by_cases hq : q.isPrefixOf s
    · simp [hq]
    · rw [if_neg hq]
      rcases List.mem_cons.mp hp with h | h
      · subst h
        exact absurd (isPrefixOf_true.mpr hpre) hq
      · exact ih h

/-- Splitting a prefix of an append. -/
lemma prefix_append_cases {q u v : List Char} (h : q <+: u ++ v) :
    q <+: u ∨ ∃ w, q = u ++ w ∧ w <+: v := by
  induction u generalizing q with
  | nil => exact Or.inr ⟨q, rfl, by simpa using h⟩
  | cons c u' ih =>
    rcases List.prefix_cons_iff.mp (by simpa using h) with h0 | ⟨t, ht, hpre⟩
    · subst h0; exact Or.inl ⟨c :: u', rfl⟩
    · rcases ih hpre with h1 | ⟨w, hw, hwp⟩
      · subst ht
        exact Or.inl (List.cons_prefix_cons.mpr ⟨rfl, h1⟩)
      · subst ht; subst hw
        exact Or.inr ⟨w, rfl, hwp⟩

/-- Splitting an occurrence inside an append: it sits in the left part, in
the right part, or straddles with a nonempty left piece that is a suffix of
the left part. -/
lemma infix_append_cases {q u v : List Char} (h : q <:+: u ++ v) :
    q <:+: u ∨ q <:+: v ∨
      ∃ q1 q2, q = q1 ++ q2 ∧ q1 ≠ [] ∧ q1 <:+ u ∧ q2 <+: v := by
  induction u generalizing q with
  | nil => exact Or.inr (Or.inl (by simpa using h))
  | cons c u' ih =>
    rcases List.infix_cons_iff.mp (by simpa using h) with hpre | hinf
    · rcases List.prefix_cons_iff.mp hpre with h0 | ⟨t, ht, hpre'⟩
      · subst h0; exact Or.inl ⟨[], c :: u', rfl⟩
      · rcases prefix_append_cases hpre' with h1 | ⟨w, hw, hwp⟩
        · subst ht
          exact Or.inl ((List.cons_prefix_cons.mpr ⟨rfl, h1⟩).isInfix)
        · subst ht; subst hw
          refine Or.inr (Or.inr ⟨c :: u', w, rfl, by simp, ⟨[], rfl⟩, hwp⟩)
    · rcases ih hinf with h1 | h1 | ⟨q1, q2, hq, hne, hsuf, hpre'⟩
      · exact Or.inl (List.infix_cons h1)
      · exact Or.inr (Or.inl h1)
      · exact Or.inr (Or.inr ⟨q1, q2, hq, hne,
          hsuf.trans (List.suffix_cons c u'), hpre'⟩)

/-- A marked-or-space word that is a prefix of a replacement pass output is
already a prefix of the input: the pass only ever puts replacement text at
the front, whose head character disqualifies it. -/
lemma prefix_replaceAllAux {pats : List (List Char)} {repl : List Char}
    (hrepl : goodRepl repl = true) :
    ∀ fuel t q', t.length ≤ fuel →
      q' <+: replaceAllAux pats repl fuel t →
      (∀ c ∈ q', markedOrSpace c = true) → q' <+: t := by
  intro fuel
  induction fuel with
  | zero =>
    intro t q' _ h _
    simpa [replaceAllAux] using h
  | succ fuel ih =>
    intro t q' hlen h hall
    cases t with
    | nil =>
      simpa [replaceAllAux] using h
    | cons c cs =>
      rw [replaceAllAux] at h
      cases hm : firstAltMatch pats (c :: cs) with
      | some rest =>
        rw [hm] at h
        obtain ⟨⟨rh, rt, hr, hrh⟩, _⟩ := goodRepl_parts hrepl
        cases q' with
        | nil => exact ⟨c :: cs, rfl⟩
        | cons d q'' =>
          rw [hr] at h
          have hd : d = rh := (List.cons_prefix_cons.mp (by simpa using h)).1
          have : markedOrSpace d = true := hall d (List.mem_cons_self ..)
          rw [hd, hrh] at this
          exact absurd this (by simp)
      | none =>
        rw [hm] at h
        cases q' with
        | nil => exact ⟨c :: cs, rfl⟩
        | cons d q'' =>
          obtain ⟨hd, hpre⟩ := List.cons_prefix_cons.mp h
          have hq'' : q'' <+: cs :=
            ih cs q'' (by simpa using Nat.le_of_succ_le_succ hlen) hpre
              fun x hx => hall x (List.mem_cons_of_mem _ hx)
          subst hd
          exact List.cons_prefix_cons.mpr ⟨rfl, hq''⟩

/-- An occurrence at a position the scanner passed over: the containing text
splits around the word and no alternative matches at its position. -/
def EmOcc (pats : List (List Char)) (q t : List Char) : Prop :=
  ∃ a b, t = a ++ q ++ b ∧ firstAltMatch pats (q ++ b) = none

/-- The central lemma: a good word occurring in the output of one
replacement pass occurred in the input, at a position where no alternative
matched. -/
lemma infix_replaceAllAux {pats : List (List Char)} {repl q : List Char}
    (hrepl : goodRepl repl = true) (hpats : pats.all goodPat = true)
    (hq : goodPat q = true) :
    ∀ fuel t, t.length ≤ fuel →
      q <:+: replaceAllAux pats repl fuel t → EmOcc pats q t := by
  intro fuel
  induction fuel with
  | zero =>
    intro t hlen h
    have ht : t = [] := List.length_eq_zero.mp (Nat.le_zero.mp hlen)
    subst ht
    rw [replaceAllAux] at h
    obtain ⟨a, b, hab⟩ := h
    have : q = [] := by
      rcases List.append_eq_nil.mp hab with ⟨h1, h2⟩
      exact (List.append_eq_nil.mp h1).2
    exact absurd this (goodPat_ne_nil hq)
  | succ fuel ih =>
    intro t hlen h
    cases t with
    | nil =>
      rw [replaceAllAux] at h
      obtain ⟨a, b, hab⟩ := h
      have : q = [] := by
        rcases List.append_eq_nil.mp hab with ⟨h1, h2⟩
        exact (List.append_eq_nil.mp h1).2
      exact absurd this (goodPat_ne_nil hq)
    | cons c cs =>
      obtain ⟨qh, qt, hqc⟩ : ∃ qh qt, q = qh :: qt := by
        cases q with
        | nil => exact absurd rfl (goodPat_ne_nil hq)
        | cons qh qt => exact ⟨qh, qt, rfl⟩
      have hqhm : isMarkedChar qh = true := goodPat_head hq hqc
      rw [replaceAllAux] at h
      cases hm : firstAltMatch pats (c :: cs) with
      | some rest =>
        replace h : q <:+: repl ++ replaceAllAux pats repl fuel rest := by
          rw [hm] at h; exact h
        obtain ⟨p, hpmem, w, hw, hrest⟩ := firstAltMatch_eq_some hm
        have hpgood : goodPat p = true := by
          simpa using List.all_eq_true.mp hpats p hpmem
        have hp1 : 1 ≤ p.length := by
          cases p with
          | nil => exact absurd rfl (goodPat_ne_nil hpgood)
          | cons _ _ => simp
        have hrlen : rest.length ≤ fuel := by
          have hlc : (c :: cs).length = (p ++ w).length := congrArg List.length hw
          rw [List.length_cons, List.length_append] at hlc
          rw [hrest]
          have : cs.length + 1 ≤ fuel + 1 := by simpa using hlen
          omega
        have hnomark : ∀ x ∈ repl, isMarkedChar x = false := (goodRepl_parts hrepl).2
        rcases infix_append_cases h with hin | hin | ⟨q1, q2, hsplit, hne, hsuf, _⟩
        · have : qh ∈ repl := hin.subset (hqc ▸ List.mem_cons_self ..)
          rw [hnomark qh this] at hqhm
          exact absurd hqhm (by simp)
        · obtain ⟨a, b, hab, hnone⟩ := ih rest hrlen hin
          refine ⟨p ++ a, b, ?_, hnone⟩
          rw [hw, ← hrest, hab]
          simp
        · obtain ⟨r1, rt, hr1⟩ : ∃ r1 rt, q1 = r1 :: rt := by
            cases q1 with
            | nil => exact absurd rfl hne
            | cons r1 rt => exact ⟨r1, rt, rfl⟩
          have hr1q : r1 = qh := by
            rw [hqc, hr1] at hsplit
            exact (List.cons.injEq .. ▸ hsplit).1.symm
          have : r1 ∈ repl := hsuf.subset (hr1 ▸ List.mem_cons_self ..)
          rw [hr1q] at this
          rw [hnomark qh this] at hqhm
          exact absurd hqhm (by simp)
      | none =>
        replace h : q <:+: c :: replaceAllAux pats repl fuel cs := by
          rw [hm] at h; exact h
        rcases List.infix_cons_iff.mp h with hpre | hinf
        · rw [hqc] at hpre
          obtain ⟨hqh, hqt⟩ := List.cons_prefix_cons.mp hpre
          have hqtpre : qt <+: cs :=
            prefix_replaceAllAux hrepl fuel cs qt
              (by simpa using Nat.le_of_succ_le_succ hlen) hqt
              fun x hx => goodPat_all hq x (hqc ▸ List.mem_cons_of_mem _ hx)
          obtain ⟨b, hb⟩ := hqtpre
          refine ⟨[], b, ?_, ?_⟩
          · rw [hqc, hqh]
            simp [← hb]
          · have : q ++ b = c :: cs := by rw [hqc, hqh]; simp [← hb]
            rw [this]; exact hm
        · obtain ⟨a, b, hab, hnone⟩ := ih cs (by simpa using Nat.le_of_succ_le_succ hlen) hinf
          exact ⟨c :: a, b, by rw [hab]; simp, hnone⟩

/-- One pass of a good rule can not create an occurrence of a good word. -/
lemma not_infix_applyRule {ru : ReplaceRule} {q t : List Char}
    (hru : goodRule ru = true) (hq : goodPat q = true)
    (h : ¬ q <:+: t) : ¬ q <:+: applyRule ru t := by
  intro hocc
  rw [goodRule, Bool.and_eq_true] at hru
  obtain ⟨a, b, hab, _⟩ :=
    infix_replaceAllAux hru.2 hru.1 hq t.length t (Nat.le_refl _) hocc
  exact h ⟨a, b, hab.symm⟩

/-- One pass of a good rule eliminates every occurrence of each of its own
patterns. -/
lemma pat_not_infix_applyRule {ru : ReplaceRule} {p t : List Char}
    (hru : goodRule ru = true) (hp : p ∈ ru.pats) : ¬ p <:+: applyRule ru t := by
  intro hocc
  rw [goodRule, Bool.and_eq_true] at hru
  have hpg : goodPat p = true := List.all_eq_true.mp hru.1 p hp
  obtain ⟨a, b, _, hnone⟩ :=
    infix_replaceAllAux hru.2 hru.1 hpg t.length t (Nat.le_refl _) hocc
  exact firstAltMatch_isSome_of_prefix hp ⟨b, rfl⟩ hnone

lemma preserve_not_infix_applyRules {rus : List ReplaceRule} {q : List Char}
    (hrules : ∀ ru ∈ rus, goodRule ru = true) (hq : goodPat q = true) :
    ∀ s, ¬ q <:+: s → ¬ q <:+: applyRules rus s := by
  induction rus with
  | nil => intro s h; simpa [applyRules] using h
  | cons ru rus ih =>
    intro s h
    rw [applyRules]
    exact ih (fun r hr => hrules r (List.mem_cons_of_mem _ hr)) _
      (not_infix_applyRule (hrules ru (List.mem_cons_self ..)) hq h)

/-- After the full pass sequence, no pattern of any rule occurs. -/
lemma applyRules_no_pat {rules : List ReplaceRule}
    (hrules : ∀ ru ∈ rules, goodRule ru = true) :
    ∀ t, ∀ ru ∈ rules, ∀ p ∈ ru.pats, ¬ p <:+: applyRules rules t := by
  induction rules with
  | nil => intro t ru hru; simp at hru
  | cons ru0 rus ih =>
    intro t ru hru p hp
    have hru0 : goodRule ru0 = true := hrules ru0 (List.mem_cons_self ..)
    rcases List.mem_cons.mp hru with h | h
    · subst h
      rw [applyRules]
      have hpg : goodPat p = true := by
        rw [goodRule, Bool.and_eq_true] at hru0
        exact List.all_eq_true.mp hru0.1 p hp
      exact preserve_not_infix_applyRules
        (fun r hr => hrules r (List.mem_cons_of_mem _ hr)) hpg _
        (pat_not_infix_applyRule hru0 hp)
    · rw [applyRules]
      exact ih (fun r hr => hrules r (List.mem_cons_of_mem _ hr)) _ ru h p hp

lemma firstAltMatch_eq_none_of_no_prefix {pats : List (List Char)} {s : List Char}
    (h : ∀ p ∈ pats, ¬ p <+: s) : firstAltMatch pats s = none := by
  induction pats with
  | nil => rfl
  | cons p ps ih =>
    rw [firstAltMatch, if_neg, ih]
    · intro x hx
      exact h x (List.mem_cons_of_mem _ hx)
    · intro hc
      exact h p (List.mem_cons_self ..) (isPrefixOf_true.mp hc)

lemma replaceAllAux_id {pats : List (List Char)} {repl : List Char} :
    ∀ fuel t, (∀ p ∈ pats, ¬ p <:+: t) → replaceAllAux pats repl fuel t = t := by
  intro fuel
  induction fuel with
  | zero => intro t _; rfl
  | succ fuel ih =>
    intro t h
    cases t with
    | nil => rfl
    | cons c cs =>
      rw [replaceAllAux, firstAltMatch_eq_none_of_no_prefix, ih]
      · intro p hp hocc
        exact h p hp (List.infix_cons hocc)
      · intro p hp ⟨w, hw⟩
        exact h p hp ⟨[], w, by simpa using hw⟩

lemma applyRules_id {rus : List ReplaceRule} :
    ∀ t, (∀ ru ∈ rus, ∀ p ∈ ru.pats, ¬ p <:+: t) → applyRules rus t = t := by
  induction rus with
  | nil => intro t _; rfl
  | cons ru rus ih =>
    intro t h
    rw [applyRules, applyRule, replaceAllAux_id _ t fun p hp =>
      h ru (List.mem_cons_self ..) p hp]
    exact ih t fun r hr p hp => h r (List.mem_cons_of_mem _ hr) p hp

/-- One full pass of a good rule table is idempotent. -/
lemma applyRules_idem {rules : List ReplaceRule}
    (hrules : ∀ ru ∈ rules, goodRule ru = true) (t : List Char) :
    applyRules rules (applyRules rules t) = applyRules rules t :=
  applyRules_id _ (applyRules_no_pat hrules t)

/-! ## Concrete fixtures -/

def sampleUser : UserRec :=
  { name := "Asha", phone := some "9999999999", email := "asha@example.com" }

/-- The urgency precedence the spec states for blood-request finalization
(also the one written in the comments of the earlier, shadowed declaration
of createRequestFromChatWithInfo): regex-detected urgency from the raw
message first, then the AI-suggested slot, then high. -/
def specThreeTierUrgency (message : String) (extractedInfo : SlotMap) : String :=
  match extractUrgency message with
  | some u => u
  | none => jsOrS extractedInfo.urgencyLevel "high"

/-! ## Claim theorems -/

/-- C1: finalizing a blood_request whose slot map has no bloodType entry
raises the validation error and creates no request entity, for every user,
message and priority; and, at the conversation-step level, for every AI
oracle the error is caught inside the finalize step: the turn still
produces a response (the apology message) and no created request. -/
theorem claim_C1_blood_finalize_requires_bloodType (u : UserRec)
    (msg priority : String) (slots : SlotMap) (hbt : slots.bloodType = none) :
    createRequestFromChatWithInfo (some u) msg "blood_request" priority slots
      = .error "Cannot create blood request without blood type" ∧
    ∀ (oracle : AIOracle) (newId : String) (missingInfo : List String)
      (geminiResponse : Option String),
      (conversationStep oracle (some u) newId msg "blood_request" priority slots
          missingInfo false geminiResponse).createdRequest = none ∧
      (conversationStep oracle (some u) newId msg "blood_request" priority slots
          missingInfo false geminiResponse).responseMessage =
        "I understood your request, but encountered an error saving it. Please try again." := by
  have herr : createRequestFromChatWithInfo (some u) msg "blood_request" priority slots
      = .error "Cannot create blood request without blood type" := by
    rw [createRequestFromChatWithInfo]
    simp [jsTruthyS, hbt, pure, Except.pure]
  refine ⟨herr, fun oracle newId missingInfo geminiResponse => ?_⟩
  rw [conversationStep, if_pos (by simp [shouldCreateRequest]), if_neg (by simp), herr]
  exact ⟨rfl, rfl⟩

/-- C1 witness: the theorem instantiated at a concrete user, message,
priority and empty slot map. -/
theorem claim_C1_witness :
    createRequestFromChatWithInfo (some sampleUser) "I need blood" "blood_request" "high" {}
      = .error "Cannot create blood request without blood type" ∧
    (conversationStep aiDown (some sampleUser) "rid0" "I need blood" "blood_request" "high" {}
        [] false none).createdRequest = none :=
  ⟨(claim_C1_blood_finalize_requires_bloodType sampleUser "I need blood" "high" {} rfl).1,
   ((claim_C1_blood_finalize_requires_bloodType sampleUser "I need blood" "high" {} rfl).2
      aiDown "rid0" [] none).1⟩

/-- C2: the claim says blood-request finalization resolves urgencyLevel (and
the persisted priority) as regex-detected urgency first, then the
AI-suggested slot, then high.  The effective (later) declaration of
createRequestFromChatWithInfo instead uses the AI slot first and never
consults extractUrgency, and it leaves the priority at the mapped classifier
priority: at this input the regex finds urgent, yet the entity is stored
with urgencyLevel medium and priority high. -/
theorem claim_C2_urgency_precedence_bug :
    extractUrgency "I need blood immediately" = some "urgent" ∧
    specThreeTierUrgency "I need blood immediately"
      { bloodType := some "O+", urgencyLevel := some "medium" } = "urgent" ∧
    (createRequestFromChatWithInfo (some sampleUser) "I need blood immediately"
        "blood_request" "high"
        { bloodType := some "O+", urgencyLevel := some "medium" }).toOption.map
      (fun rd => (rd.urgencyLevel, rd.priority)) = some (some "medium", "high") := by
  refine ⟨by decide, by decide, by decide⟩

/-- C3: the source comments promise Hindi-script extraction on the very
example "ए पॉजिटिव खून", but the word-boundary assertion before a
Devanagari letter can never hold after a space or at the start of the
string, so the Hindi (and Telugu) phrase patterns never fire on such text;
the compact Latin pattern likewise rejects a sign form followed by a
non-word character.  The word forms still work. -/
theorem claim_C3_blood_token_extraction_bug :
    extractBloodType "ए पॉजिटिव खून" = none ∧
    extractBloodType "my blood group is O+." = none ∧
    extractBloodType "O positive blood" = some "O+" ∧
    extractBloodType "need AB positive blood" = some "AB+" := by
  refine ⟨by decide, by decide, by decide, by decide⟩

/-- C4 counterexample: the claim puts the Devanagari script test first, but
the source tests Telugu first; on a text containing both scripts the
detector answers te, not hi. -/
theorem claim_C4_counterexample :
    ("खून రక్తం" : String).data.any isDevanagariChar = true ∧
    detectLanguageFromText "खून రక్తం" = "te" ∧
    detectLanguageFromText "खून రక్తం" ≠ "hi" := by
  refine ⟨by decide, by decide, by decide⟩

/-- C4 (amended): the detector is the first-match cascade with the Telugu
test (script range or native keywords) first, then the Hindi test, then the
romanized Telugu list, then the romanized Hindi list, then the default en;
in particular a sentence matching none of the tests is classified en. -/
theorem claim_C4_language_cascade (t : String) :
    ((anyChar isTeluguChar t || strContainsAny t teluguNativeWords) = true →
      detectLanguageFromText t = "te") ∧
    ((anyChar isTeluguChar t || strContainsAny t teluguNativeWords) = false →
     (anyChar isDevanagariChar t || strContainsAny t hindiNativeWords) = true →
      detectLanguageFromText t = "hi") ∧
    ((anyChar isTeluguChar t || strContainsAny t teluguNativeWords) = false →
     (anyChar isDevanagariChar t || strContainsAny t hindiNativeWords) = false →
     wordSearchCI (teluguRomanWords.map String.data) none t.data = true →
      detectLanguageFromText t = "te") ∧
    ((anyChar isTeluguChar t || strContainsAny t teluguNativeWords) = false →
     (anyChar isDevanagariChar t || strContainsAny t hindiNativeWords) = false →
     wordSearchCI (teluguRomanWords.map String.data) none t.data = false →
     wordSearchCI (hindiRomanWords.map String.data) none t.data = true →
      detectLanguageFromText t = "hi") ∧
    ((anyChar isTeluguChar t || strContainsAny t teluguNativeWords) = false →
     (anyChar isDevanagariChar t || strContainsAny t hindiNativeWords) = false →
     wordSearchCI (teluguRomanWords.map String.data) none t.data = false →
     wordSearchCI (hindiRomanWords.map String.data) none t.data = false →
      detectLanguageFromText t = "en") := by
  refine ⟨?_, ?_, ?_, ?_, ?_⟩ <;>
    (intros; simp_all [detectLanguageFromText])

/-- C4 witness: the amended cascade applied to concrete texts for the first
and the last tier. -/
theorem claim_C4_witness :
    detectLanguageFromText "రక్తం" = "te" ∧
    detectLanguageFromText "hello how are you today" = "en" :=
  ⟨(claim_C4_language_cascade "రక్తం").1 (by decide),
   (claim_C4_language_cascade "hello how are you today").2.2.2.2
     (by decide) (by decide) (by decide) (by decide)⟩

def c5Oracle : AIOracle where
  processText := some
    { success := true, response := some "ok", category := some "blood_request",
      priority := some "high", usingFallback := false }
  extract :=
    { success := true, usingFallback := false,
      extractedInfo := { bloodType := some "O+" },
      missingRequired := [], needsMoreInfo := true }
  followUp := { success := false, usingFallback := true, question := "" }
  confirm := none

set_option maxHeartbeats 4000000 in
set_option maxRecDepth 4000 in
/-- C5 counterexample: when the AI extraction reports needsMoreInfo with an
empty missingRequired list, the turn finalizes anyway and the payload
carries both a created request id and needsMoreInfo true - the claimed
exclusivity fails. -/
theorem claim_C5_counterexample :
    (textHandler "need help" {} c5Oracle (some sampleUser) "rid9").toOption.map
      (fun o => (o.createdRequestId, o.needsMoreInfo, o.missingInfo))
      = some (some "rid9", true, []) := by
  decide

lemma conversationStep_created_cond {oracle : AIOracle} {userLookup : Option UserRec}
    {newId trimmed cat prio : String} {info : SlotMap} {missing : List String}
    {nmi : Bool} {resp : Option String}
    (h : (conversationStep oracle userLookup newId trimmed cat prio info missing nmi
        resp).createdRequestId.isSome = true) :
    ¬(nmi = true ∧ missing ≠ []) := by
  rintro ⟨h1, h2⟩
  rw [conversationStep] at h
  by_cases hs : shouldCreateRequest cat trimmed = true
  · rw [if_pos hs] at h
    have hcond : (nmi && decide (0 < missing.length)) = true := by
      rw [h1]
      simpa using List.length_pos.mpr h2
    rw [if_pos hcond] at h
    simp at h
  · rw [if_neg hs] at h
    simp at h

/-- C5 (amended): a turn payload never carries a created request id together
with needsMoreInfo true and a nonempty missingInfo; the exclusivity only
fails in the corner where the AI extraction says needsMoreInfo with an empty
missingRequired list, as the counterexample shows. -/
theorem claim_C5_payload_exclusivity (message : String) (ctx : SlotMap)
    (oracle : AIOracle) (userLookup : Option UserRec) (newId : String)
    (out : TurnResult)
    (h : textHandler message ctx oracle userLookup newId = .ok out)
    (hc : out.createdRequestId.isSome = true) :
    ¬(out.needsMoreInfo = true ∧ out.missingInfo ≠ []) := by
  rw [textHandler] at h
  by_cases he : (trimJS message == "") = true
  · rw [if_pos he] at h
    exact absurd h (by simp)
  · rw [if_neg he] at h
    rw [Except.ok.injEq] at h
    subst h
    exact conversationStep_created_cond hc

lemma except_toOption_ok {e : Except String TurnResult} {o : TurnResult}
    (h : e.toOption = some o) : e = .ok o := by
  cases e with
  | ok a => simpa [Except.toOption] using h
  | error _ => simp [Except.toOption] at h

/-- The turn of the C5 counterexample, as a value. -/
def c5Out : TurnResult :=
  (textHandler "need help" {} c5Oracle (some sampleUser) "rid9").toOption.getD default

set_option maxHeartbeats 4000000 in
set_option maxRecDepth 4000 in
/-- C5 witness: the amended exclusivity at the counterexample turn, whose
hypotheses hold by computation. -/
theorem claim_C5_witness :
    ¬(c5Out.needsMoreInfo = true ∧ c5Out.missingInfo ≠ []) :=
  claim_C5_payload_exclusivity "need help" {} c5Oracle (some sampleUser) "rid9" c5Out
    (except_toOption_ok (by decide)) (by decide)

set_option maxHeartbeats 8000000 in
set_option maxRecDepth 4000 in
/-- C6: the two-turn fallback scenario.  Turn one (I need blood, empty
context) asks the bloodType follow-up and persists the partial slot map, as
the claim says; but turn two (AB negative, with that context) is
re-classified from the message alone, lands in general_inquiry, and so
produces a general reply and no request - even though the extractor itself
maps AB negative to AB-.  The claimed finalization with bloodType AB- does
not happen. -/
theorem claim_C6_two_turn_scenario :
    (textHandler "I need blood" {} aiDown (some sampleUser) "rid1").toOption.map
      (fun o => (o.category, o.missingInfo, o.needsMoreInfo, o.createdRequestId))
      = some ("blood_request", ["bloodType"], true, none) ∧
    (textHandler "I need blood" {} aiDown (some sampleUser) "rid1").toOption.map
      (fun o => (o.responseMessage, o.savedPendingContext))
      = some
        ("I understand you need blood. What blood type is required? (e.g., A+, B+, O+, AB+, A-, B-, O-, AB-)",
         some {}) ∧
    (textHandler "AB negative" {} aiDown (some sampleUser) "rid2").toOption.map
      (fun o => (o.category, o.createdRequestId, o.needsMoreInfo, o.missingInfo))
      = some ("general_inquiry", none, false, []) ∧
    extractBloodType "AB negative" = some "AB-" := by
  refine ⟨by decide, by decide, by decide, by decide⟩

set_option maxHeartbeats 2000000 in
/-- C7: translateToEnglish is idempotent, and text without Devanagari or
Telugu code points is returned unchanged. -/
theorem claim_C7_normalizer_idempotent (x : String) :
    translateToEnglish (translateToEnglish x) = translateToEnglish x ∧
    (x.data.any isMarkedChar = false → translateToEnglish x = x) := by
  have hgood : ∀ ru ∈ translationRules, goodRule ru = true := by
    intro ru hru
    simpa using List.all_eq_true.mp translationRules_good ru hru
  constructor
  · by_cases hx : x.data.any isMarkedChar = true
    · have h1 : translateToEnglish x = ⟨applyRules translationRules x.data⟩ := by
        rw [translateToEnglish, if_pos hx]
      rw [h1]
      generalize hy : applyRules translationRules x.data = y
      have hdata : (⟨y⟩ : String).data = y := rfl
      rw [translateToEnglish, hdata]
      by_cases h2 : y.any isMarkedChar = true
      · rw [if_pos h2, ← hy, applyRules_idem hgood]
      · rw [if_neg h2]
    · have h1 : translateToEnglish x = x := by
        rw [translateToEnglish, if_neg hx]
      rw [h1, h1]
  · intro h
    rw [translateToEnglish, if_neg (by simp [h])]

/-- C7 witness: the theorem at concrete inputs, the unchanged-text clause
discharged by computation. -/
theorem claim_C7_witness :
    translateToEnglish (translateToEnglish "मुझे खून चाहिए") =
      translateToEnglish "मुझे खून चाहिए" ∧
    translateToEnglish "plain english text" = "plain english text" :=
  ⟨(claim_C7_normalizer_idempotent "मुझे खून चाहिए").1,
   (claim_C7_normalizer_idempotent "plain english text").2 (by decide)⟩

/-- C8: the classifier tests its keyword patterns in the fixed order blood,
emergency, elder, complaint, general; a message matching both the blood and
the emergency patterns is classified blood_request; and every message gets
exactly one of the five categories. -/
theorem claim_C8_classifier_order (t : String) :
    (bloodPatternMatch (strLower t) = true → categorizeRequest t = "blood_request") ∧
    (bloodPatternMatch (strLower t) = true → emergencyPatternMatch (strLower t) = true →
      categorizeRequest t = "blood_request") ∧
    (bloodPatternMatch (strLower t) = false → emergencyPatternMatch (strLower t) = true →
      categorizeRequest t = "emergency") ∧
    (bloodPatternMatch (strLower t) = false → emergencyPatternMatch (strLower t) = false →
     elderPatternMatch (strLower t) = true → categorizeRequest t = "elder_support") ∧
    (bloodPatternMatch (strLower t) = false → emergencyPatternMatch (strLower t) = false →
     elderPatternMatch (strLower t) = false → complaintPatternMatch (strLower t) = true →
      categorizeRequest t = "complaint") ∧
    (bloodPatternMatch (strLower t) = false → emergencyPatternMatch (strLower t) = false →
     elderPatternMatch (strLower t) = false → complaintPatternMatch (strLower t) = false →
      categorizeRequest t = "general_inquiry") ∧
    (categorizeRequest t = "blood_request" ∨ categorizeRequest t = "emergency" ∨
     categorizeRequest t = "elder_support" ∨ categorizeRequest t = "complaint" ∨
     categorizeRequest t = "general_inquiry") := by
  refine ⟨?_, ?_, ?_, ?_, ?_, ?_, ?_⟩
  · intro h1; simp [categorizeRequest, h1]
  · intro h1 _; simp [categorizeRequest, h1]
  · intro h1 h2; simp [categorizeRequest, h1, h2]
  · intro h1 h2 h3; simp [categorizeRequest, h1, h2, h3]
  · intro h1 h2 h3 h4; simp [categorizeRequest, h1, h2, h3, h4]
  · intro h1 h2 h3 h4; simp [categorizeRequest, h1, h2, h3, h4]
  · rw [categorizeRequest]
    by_cases h1 : bloodPatternMatch (strLower t) = true
    · simp [h1]
    · by_cases h2 : emergencyPatternMatch (strLower t) = true
      · simp [h1, h2]
      · by_cases h3 : elderPatternMatch (strLower t) = true
        · simp [h1, h2, h3]
        · by_cases h4 : complaintPatternMatch (strLower t) = true
          · simp [h1, h2, h3, h4]
          · simp [h1, h2, h3, h4]

/-- C8 witness: a message matching both the blood and the emergency keyword
sets is classified blood_request. -/
theorem claim_C8_witness :
    bloodPatternMatch (strLower "emergency blood needed") = true ∧
    emergencyPatternMatch (strLower "emergency blood needed") = true ∧
    categorizeRequest "emergency blood needed" = "blood_request" :=
  ⟨by decide, by decide,
   (claim_C8_classifier_order "emergency blood needed").2.1 (by decide) (by decide)⟩

/-- C9: the completeness checker reports exactly bloodType for an empty
blood_request slot map and nothing once it is present; in general
blood_request reports only a missing bloodType, elder_support only the joint
absence of serviceType and supportType, and complaint only a missing
complaintCategory. -/
theorem claim_C9_missing_required (slots : SlotMap) :
    getMissingRequiredInfo "blood_request" {} = ["bloodType"] ∧
    getMissingRequiredInfo "blood_request" { bloodType := some "O+" } = [] ∧
    getMissingRequiredInfo "blood_request" slots
      = (if jsTruthyS slots.bloodType then [] else ["bloodType"]) ∧
    getMissingRequiredInfo "elder_support" slots
      = (if jsTruthyS slots.serviceType || jsTruthyL slots.supportType then []
         else ["serviceType"]) ∧
    getMissingRequiredInfo "complaint" slots
      = (if jsTruthyS slots.complaintCategory then [] else ["complaintCategory"]) := by
  refine ⟨by decide, by decide, ?_, ?_, ?_⟩ <;>
    · rw [getMissingRequiredInfo]
      split_ifs <;> simp_all

/-- C10: extractUrgency tests its tiers in the order urgent, low, high,
medium and yields null when none fires; since the urgent tier is a substring
test that runs first, any message whose lowercase form contains urgent -
including not urgent - yields urgent, never low. -/
theorem claim_C10_urgency_tiers (t : String) :
    (strContainsAny (strLower t) urgencyUrgentWords = true →
      extractUrgency t = some "urgent") ∧
    (strContainsAny (strLower t) urgencyUrgentWords = false →
     strContainsAny (strLower t) urgencyLowWords = true →
      extractUrgency t = some "low") ∧
    (strContainsAny (strLower t) urgencyUrgentWords = false →
     strContainsAny (strLower t) urgencyLowWords = false →
     strContainsAny (strLower t) urgencyHighWords = true →
      extractUrgency t = some "high") ∧
    (strContainsAny (strLower t) urgencyUrgentWords = false →
     strContainsAny (strLower t) urgencyLowWords = false →
     strContainsAny (strLower t) urgencyHighWords = false →
     strContainsAny (strLower t) urgencyMediumWords = true →
      extractUrgency t = some "medium") ∧
    (strContainsAny (strLower t) urgencyUrgentWords = false →
     strContainsAny (strLower t) urgencyLowWords = false →
     strContainsAny (strLower t) urgencyHighWords = false →
     strContainsAny (strLower t) urgencyMediumWords = false →
      extractUrgency t = none) ∧
    (strContains (strLower t) "urgent" = true → extractUrgency t = some "urgent") := by
  refine ⟨?_, ?_, ?_, ?_, ?_, ?_⟩
  · intro h1; simp [extractUrgency, h1]
  · intro h1 h2; simp [extractUrgency, h1, h2]
  · intro h1 h2 h3; simp [extractUrgency, h1, h2, h3]
  · intro h1 h2 h3 h4; simp [extractUrgency, h1, h2, h3, h4]
  · intro h1 h2 h3 h4; simp [extractUrgency, h1, h2, h3, h4]
  · intro h
    have h1 : strContainsAny (strLower t) urgencyUrgentWords = true := by
      rw [strContainsAny, containsAnyOf, List.any_eq_true]
      exact ⟨"urgent".data, by decide, h⟩
    simp [extractUrgency, h1]

/-- C10 witness: not urgent contains urgent, so the urgent tier wins. -/
theorem claim_C10_witness :
    strContains (strLower "this is not urgent") "urgent" = true ∧
    extractUrgency "this is not urgent" = some "urgent" :=
  ⟨by decide, (claim_C10_urgency_tiers "this is not urgent").2.2.2.2.2 (by decide)⟩

end SevaLink
